import Mathlib

/-!
Verification development for the linear-mcp server (`src/index.ts`).

The server exposes Linear issue-tracker operations as MCP tools.  The single
request handler registered for `CallToolRequestSchema` (index.ts lines
697-2341) dispatches on the tool name, calls the Linear SDK client, reshapes
the result into a JSON payload, and catches every thrown error at the dispatch
boundary, turning it into a response with `isError: true`.

Shallow embedding conventions:
* The remote Linear service is modelled by `LinearClient`: a record of total
  functions giving, for each SDK accessor used by the code, the data the
  remote would return.  Lazily-loaded SDK relations (`issue.state`,
  `issue.assignee`, ...) are modelled as fields of the entity records: the
  environment holds the already-resolved object graph.
* A remote API failure is modelled by the `fail` flag of `LinearClient`:
  when set, every awaited client call throws that message
  (`LinearClient.run`).
* A JavaScript `throw` is `Except.error msg`; the `try/catch` at the dispatch
  boundary is `callTool`, which converts `Except.error e` into the
  `isError: true` response with text `"Linear API error: " ++ e`, exactly as
  the catch block at lines 2329-2340 does.
* `JSON.stringify(x, null, 2)` is modelled by carrying the JSON value itself
  in the response content (`Content.json`); the claims under study are about
  the structure of that JSON, not its textual rendering.  `Json.undef`
  stands for a JavaScript `undefined` property value, which `JSON.stringify`
  drops from objects.
* Machine numbers that the handlers merely copy through (priority, progress,
  estimate, ...) are carried as `Int`; no claim depends on their arithmetic.
-/

namespace LinearMcp

/-- JSON values as produced by the handlers.  `undef` models a property whose
JavaScript value is `undefined` (dropped by `JSON.stringify`). -/
inductive Json where
  | null : Json
  | undef : Json
  | bool : Bool → Json
  | num : Int → Json
  | str : String → Json
  | arr : List Json → Json
  | obj : List (String × Json) → Json
deriving Repr

/-- Keys of a JSON object (in insertion order), `[]` on non-objects. -/
def jsonKeys : Json → List String
  | Json.obj fields => fields.map Prod.fst
  | _ => []

/-- Field lookup in a JSON object. -/
def jsonLookup (j : Json) (key : String) : Option Json :=
  match j with
  | Json.obj fields => fields.lookup key
  | _ => none

/-- `undefined`-valued optional string copied verbatim into an object
(e.g. `description: issue.description`). -/
def optStrUndef : Option String → Json
  | some s => Json.str s
  | none => Json.undef

/-- Optional string guarded by `|| null` in the source
(e.g. `startedAt: issue.startedAt || null`). -/
def optStrNull : Option String → Json
  | some s => Json.str s
  | none => Json.null

/-- `x ? f(x) : null` projection of an optional related entity. -/
def optObj {α : Type} (f : α → Json) : Option α → Json
  | some x => f x
  | none => Json.null

/-! ## Entity records (the remote object graph)

Field names follow the Linear SDK objects as the handlers read them.
Optionality follows the SDK: fields the code guards with `x ? ... : ...`
or `x || d` are `Option`. -/

structure User where
  id : String := ""
  name : String := ""
  email : String := ""
  displayName : String := ""
  avatarUrl : Option String := none
  statusEmoji : Option String := none
  statusLabel : Option String := none
  active : Bool := true
  url : String := ""
  createdAt : String := ""
  updatedAt : String := ""

structure TeamRef where
  id : String := ""
  name : String := ""
  key : String := ""

structure WorkflowState where
  id : String := ""
  name : String := ""
  type : String := ""
  color : String := ""
  description : Option String := none
  position : Int := 0

structure Label where
  id : String := ""
  name : String := ""
  color : String := ""
  description : Option String := none
  team : Option TeamRef := none

structure Comment where
  id : String := ""
  body : String := ""
  createdAt : String := ""
  updatedAt : String := ""
  user : Option User := none

structure Attachment where
  id : String := ""
  title : String := ""
  url : String := ""
  createdAt : String := ""
  updatedAt : String := ""

structure ParentRef where
  id : String := ""
  title : String := ""
  identifier : String := ""

structure CycleRef where
  id : String := ""
  name : Option String := none
  number : Int := 0

structure ProjectRef where
  id : String := ""
  name : String := ""
  state : String := ""

/-- A child issue as projected by `list_sub_issues`. -/
structure SubIssue where
  id : String := ""
  identifier : String := ""
  title : String := ""
  state : Option WorkflowState := none
  assignee : Option User := none
  priority : Int := 0
  url : String := ""

/-- An issue of a cycle as projected by `get_cycle`. -/
structure CycleIssue where
  id : String := ""
  identifier : String := ""
  title : String := ""
  state : Option WorkflowState := none
  priority : Int := 0
  url : String := ""

structure Cycle where
  id : String := ""
  number : Int := 0
  name : Option String := none
  description : Option String := none
  startsAt : String := ""
  endsAt : String := ""
  completedAt : Option String := none
  progress : Int := 0
  team : Option TeamRef := none
  issues : List CycleIssue := []

structure Team where
  id : String := ""
  name : String := ""
  key : String := ""
  description : Option String := none
  createdAt : String := ""
  updatedAt : String := ""
  states : List WorkflowState := []
  cycles : List Cycle := []

structure Project where
  id : String := ""
  name : String := ""
  description : String := ""
  state : String := ""
  teams : List TeamRef := []
  url : String := ""
  createdAt : String := ""
  updatedAt : String := ""
  startedAt : Option String := none
  targetDate : Option String := none
  completedAt : Option String := none
  canceledAt : Option String := none
  progress : Int := 0

structure Issue where
  id : String := ""
  identifier : String := ""
  title : String := ""
  description : Option String := none
  priority : Int := 0
  priorityLabel : String := ""
  url : String := ""
  createdAt : String := ""
  updatedAt : String := ""
  startedAt : Option String := none
  completedAt : Option String := none
  canceledAt : Option String := none
  dueDate : Option String := none
  estimate : Option Int := none
  customerTicketCount : Option Int := none
  previousIdentifiers : List String := []
  branchName : String := ""
  archivedAt : Option String := none
  autoArchivedAt : Option String := none
  autoClosedAt : Option String := none
  trashed : Option Bool := none
  metadata : Json := Json.obj []
  state : Option WorkflowState := none
  assignee : Option User := none
  creator : Option User := none
  team : Option TeamRef := none
  project : Option ProjectRef := none
  parent : Option ParentRef := none
  cycle : Option CycleRef := none
  labels : List Label := []
  comments : List Comment := []
  attachments : List Attachment := []
  children : List SubIssue := []

/-! ## Tool-call requests -/

inductive ArgValue where
  | str : String → ArgValue
  | num : Int → ArgValue
  | list : List String → ArgValue

abbrev Args := List (String × ArgValue)

structure ToolRequest where
  name : String
  arguments : Option Args

/-- `args?.k` for a string-typed argument (`undefined` when absent or of the
wrong shape, as the unchecked `as unknown as` cast permits). -/
def getStr (args : Option Args) (k : String) : Option String :=
  match args with
  | none => none
  | some l =>
    match l.lookup k with
    | some (ArgValue.str s) => some s
    | _ => none

/-- `args?.k` for a number-typed argument. -/
def getNum (args : Option Args) (k : String) : Option Int :=
  match args with
  | none => none
  | some l =>
    match l.lookup k with
    | some (ArgValue.num n) => some n
    | _ => none

/-- `args?.k` for a string-array argument. -/
def getList (args : Option Args) (k : String) : Option (List String) :=
  match args with
  | none => none
  | some l =>
    match l.lookup k with
    | some (ArgValue.list xs) => some xs
    | _ => none

/-- JavaScript truthiness of an optional string: `undefined` and `""` are
falsy. -/
def truthyStr : Option String → Bool
  | some s => !(s == "")
  | none => false

/-- Truthiness of `args?.k` as tested by the `if (!args?.k)` required-argument
checks. -/
def argTruthy (args : Option Args) (k : String) : Bool :=
  truthyStr (getStr args k)

/-! ## Query filters and mutation inputs -/

/-- Filter object passed to `linearClient.issues` (built at lines 964-967 for
`list_issues` and 1185-1191 for `get_issue_by_identifier`).  `number = none`
models `NaN` from `parseInt` on a malformed identifier. -/
structure IssuesFilter where
  first : Int := 50
  teamId : Option String := none
  assigneeId : Option String := none
  stateName : Option String := none
  teamKey : Option String := none
  number : Option Int := none
deriving DecidableEq

/-- Filter passed to `linearClient.issueLabels`: by team id, explicitly
team-less (`{ team: { id: { eq: null } } }`), or unfiltered. -/
inductive LabelFilter where
  | byTeam : String → LabelFilter
  | noTeam : LabelFilter
  | all : LabelFilter
deriving DecidableEq

structure CreateIssueInput where
  title : String := ""
  description : Option String := none
  teamId : String := ""
  assigneeId : Option String := none
  priority : Option Int := none
  labelIds : Option (List String) := none
  parentId : Option String := none

/-- Input of `issue.update`.  `parentId = some none` is the explicit
`parentId: null` used by `unlink_issues`. -/
structure UpdateIssueInput where
  title : Option String := none
  description : Option String := none
  stateId : Option String := none
  assigneeId : Option String := none
  priority : Option Int := none
  parentId : Option (Option String) := none

structure CreateLabelInput where
  name : String := ""
  color : String := ""
  teamId : String := ""
  description : Option String := none

structure CreateCommentInput where
  issueId : String := ""
  body : String := ""

/-! ## The remote client -/

/-- The Linear SDK client as seen by the handlers: one total function per
accessor, describing what the remote service would answer.  `fail` set means
the remote is failing: every awaited call throws that message.  Mutation
methods return the JSON payload the SDK would hand back (the handlers
stringify it verbatim). -/
structure LinearClient where
  fail : Option String := none
  viewer : User := {}
  project : String → Option Project := fun _ => none
  team : String → Option Team := fun _ => none
  user : String → Option User := fun _ => none
  issue : String → Option Issue := fun _ => none
  cycle : String → Option Cycle := fun _ => none
  issueLabel : String → Option Label := fun _ => none
  users : Int → List User := fun _ => []
  teams : List Team := []
  projects : Int → Option String → List Project := fun _ _ => []
  issues : IssuesFilter → List Issue := fun _ => []
  searchIssues : String → Int → List Issue := fun _ _ => []
  issueLabels : LabelFilter → List Label := fun _ => []
  createIssue : CreateIssueInput → Json := fun _ => Json.null
  updateIssue : String → UpdateIssueInput → Json := fun _ _ => Json.null
  createComment : CreateCommentInput → Json := fun _ => Json.null
  createIssueLabel : CreateLabelInput → Json := fun _ => Json.null
  deleteLabel : String → Unit := fun _ => ()

/-- One awaited remote call: throws the failure message when the remote is
failing, otherwise returns the remote's data. -/
def LinearClient.run {α : Type} (c : LinearClient) (a : α) : Except String α :=
  match c.fail with
  | some e => Except.error e
  | none => Except.ok a

/-! ## Responses -/

/-- One element of the response `content` array.  `json j` stands for a text
node whose body is `JSON.stringify(j, null, 2)`. -/
inductive Content where
  | text : String → Content
  | json : Json → Content

structure ToolResponse where
  content : List Content
  isError : Bool := false

/-- Successful response wrapping one stringified JSON payload. -/
def okResp (j : Json) : ToolResponse :=
  { content := [Content.json j] }

/-- The message text of the first content element (used on error responses). -/
def firstText (r : ToolResponse) : String :=
  match r.content with
  | Content.text s :: _ => s
  | _ => ""

/-- The JSON payload of the first content element (used on success). -/
def firstJson (r : ToolResponse) : Json :=
  match r.content with
  | Content.json j :: _ => j
  | _ => Json.null

/-! ## String helpers -/

/-- Does `l` start with `pat`? -/
def charsStartWith : List Char → List Char → Bool
  | [], _ => true
  | _ :: _, [] => false
  | a :: as, b :: bs => a == b && charsStartWith as bs

/-- Does `l` contain `pat` as a contiguous run? -/
def charsContain (pat : List Char) : List Char → Bool
  | [] => charsStartWith pat []
  | b :: bs => charsStartWith pat (b :: bs) || charsContain pat bs

/-- Substring test on strings. -/
def strContains (s pat : String) : Bool :=
  charsContain pat.toList s.toList

/-- Does `l` end with `pat`? -/
def charsEndWith (pat l : List Char) : Bool :=
  charsStartWith pat.reverse l.reverse

/-- The test `attachment.url.match(/\.(jpg|jpeg|png|gif|webp)$/i)` of
index.ts lines 1762-1764: the url ends in one of the five image extensions,
case-insensitively. -/
def isImageUrl (url : String) : Bool :=
  let low := url.toList.map Char.toLower
  charsEndWith ".jpg".toList low || charsEndWith ".jpeg".toList low ||
    charsEndWith ".png".toList low || charsEndWith ".gif".toList low ||
    charsEndWith ".webp".toList low

/-- Lower-case a string and drop spaces; used to compare an error message
against an argument name (e.g. "Issue ID is required" mentions `issueId`). -/
def normalizeName (s : String) : String :=
  String.mk ((s.toList.filter (fun ch => !(ch == ' '))).map Char.toLower)

/-- Base-10 digit run to an integer. -/
def digitsVal (ds : List Char) : Int :=
  ds.foldl (fun acc ch => acc * 10 + Int.ofNat (ch.toNat - 48)) 0

/-- JavaScript `parseInt(x, 10)`: `none` models `NaN` (argument `undefined`,
or no leading digits).  Leading sign handled; leading-whitespace skipping is
irrelevant for issue identifiers. -/
def parseIntJS : Option String → Option Int
  | none => none
  | some s =>
    match s.toList with
    | '-' :: rest =>
      let ds := rest.takeWhile Char.isDigit
      if ds.isEmpty then none else some (-(digitsVal ds))
    | l =>
      let ds := l.takeWhile Char.isDigit
      if ds.isEmpty then none else some (digitsVal ds)

/-! ## Embedded-image extraction (index.ts lines 1746-1757)

`issue.description?.match(/!\[.*?\]\((.*?)\)/g)` finds, left to right, runs
of the form `![` ... `](` ... `)` where the lazy `.*?` runs stop at the first
`](` resp. `)` and may not cross a newline; each full match is then reduced to
the text between its first `(` and the following `)`
(`match.match(/\((.*?)\)/)?.[1]`). -/

/-- Consume characters (none a newline) up to the first `](`; returns the
consumed run and the remainder after `](`. -/
def takeUntilBracketParen : List Char → Option (List Char × List Char)
  | [] => none
  | ']' :: '(' :: rest => some ([], rest)
  | '\n' :: _ => none
  | ch :: rest =>
    match takeUntilBracketParen rest with
    | some (pre, post) => some (ch :: pre, post)
    | none => none

/-- Consume characters (none a newline) up to the first `)`; returns the
consumed run and the remainder after `)`. -/
def takeUntilParen : List Char → Option (List Char × List Char)
  | [] => none
  | ')' :: rest => some ([], rest)
  | '\n' :: _ => none
  | ch :: rest =>
    match takeUntilParen rest with
    | some (pre, post) => some (ch :: pre, post)
    | none => none

/-- All matches of `/!\[.*?\]\((.*?)\)/g`, as full match strings.  The fuel
only bounds recursion: every step consumes at least one character, so
`length + 1` fuel is never exhausted. -/
def scanMatchesFuel : Nat → List Char → List (List Char)
  | 0, _ => []
  | _ + 1, [] => []
  | fuel + 1, '!' :: '[' :: rest =>
    (match takeUntilBracketParen rest with
     | some (pre, afterBP) =>
       match takeUntilParen afterBP with
       | some (url, afterP) =>
         ('!' :: '[' :: (pre ++ ']' :: '(' :: (url ++ [')'])))
           :: scanMatchesFuel fuel afterP
       | none => scanMatchesFuel fuel ('[' :: rest)
     | none => scanMatchesFuel fuel ('[' :: rest))
  | fuel + 1, _ :: rest => scanMatchesFuel fuel rest

def scanMatches (l : List Char) : List (List Char) :=
  scanMatchesFuel (l.length + 1) l

/-- Drop characters up to and including the first `(`. -/
def dropUntilOpenParen : List Char → Option (List Char)
  | [] => none
  | '(' :: rest => some rest
  | _ :: rest => dropUntilOpenParen rest

/-- `m.match(/\((.*?)\)/)?.[1] || ""`: the text between the first `(` of the
match and the following `)`. -/
def extractParenGroup (m : List Char) : String :=
  match dropUntilOpenParen m with
  | some rest =>
    match takeUntilParen rest with
    | some (url, _) => String.mk url
    | none => ""
  | none => ""

/-- The `embeddedImages` array of an issue-details payload. -/
def embeddedImagesJson (descr : Option String) : List Json :=
  match descr with
  | none => []
  | some d =>
    (scanMatches d.toList).map (fun m =>
      Json.obj [("url", Json.str (extractParenGroup m)),
                ("analysis", Json.str "Image analysis would go here")])

/-! ## JSON projections used by the handlers -/

/-- `{ id, name, email }` of a user (assignee/creator/comment author). -/
def userRefJson (u : User) : Json :=
  Json.obj [("id", Json.str u.id), ("name", Json.str u.name),
            ("email", Json.str u.email)]

/-- `{ id, name, key }` of a team. -/
def teamRefJson (t : TeamRef) : Json :=
  Json.obj [("id", Json.str t.id), ("name", Json.str t.name),
            ("key", Json.str t.key)]

/-- `{ id, name, state }` of an issue's project. -/
def projectRefJson (p : ProjectRef) : Json :=
  Json.obj [("id", Json.str p.id), ("name", Json.str p.name),
            ("state", Json.str p.state)]

/-- `{ id, title, identifier }` of an issue's parent. -/
def parentRefJson (p : ParentRef) : Json :=
  Json.obj [("id", Json.str p.id), ("title", Json.str p.title),
            ("identifier", Json.str p.identifier)]

/-- The `cycle` field: `cycle && cycle.name ? { id, name, number } : null`;
an absent cycle or a falsy (absent or empty) name yields `null`. -/
def cycleFieldJson : Option CycleRef → Json
  | none => Json.null
  | some cy =>
    match cy.name with
    | none => Json.null
    | some n =>
      if n == "" then Json.null
      else Json.obj [("id", Json.str cy.id), ("name", Json.str n),
                     ("number", Json.num cy.number)]

/-- `{ id, name, color }` of a label inside issue details. -/
def labelSmallJson (l : Label) : Json :=
  Json.obj [("id", Json.str l.id), ("name", Json.str l.name),
            ("color", Json.str l.color)]

/-- `{ id, body, createdAt }` of a comment inside issue details. -/
def commentSmallJson (cm : Comment) : Json :=
  Json.obj [("id", Json.str cm.id), ("body", Json.str cm.body),
            ("createdAt", Json.str cm.createdAt)]

/-- An attachment that survived the image filter, with the added `analysis`
field (lines 1760-1771). -/
def attachmentImageJson (a : Attachment) : Json :=
  Json.obj [("id", Json.str a.id), ("title", Json.str a.title),
            ("url", Json.str a.url),
            ("analysis", Json.str "Image analysis would go here")]

/-- `status: state ? state.name : "Unknown"`. -/
def statusJson : Option WorkflowState → Json
  | some st => Json.str st.name
  | none => Json.str "Unknown"

/-- `assignee: assignee ? assignee.name : "Unassigned"`. -/
def assigneeNameJson : Option User → Json
  | some u => Json.str u.name
  | none => Json.str "Unassigned"

/-- `estimate: issue.estimate || null` (note `0` is falsy and becomes null). -/
def estimateJson : Option Int → Json
  | none => Json.null
  | some n => if n == 0 then Json.null else Json.num n

/-- One element of the `list_issues` response array (lines 974-987). -/
def listedIssueJson (i : Issue) : Json :=
  Json.obj [("id", Json.str i.id), ("title", Json.str i.title),
            ("status", statusJson i.state),
            ("assignee", assigneeNameJson i.assignee),
            ("priority", Json.num i.priority), ("url", Json.str i.url)]

/-- The full `issueDetails` record built by `get_issue` (lines 1656-1744) and
`get_issue_by_identifier` (lines 1257-1345), after the two post-construction
updates: `embeddedImages` extracted from the description (1746-1757) and
`attachments` overwritten with the image-filtered, analysis-annotated list
(1760-1771).  Key order is that of the object literal. -/
def issueDetailsJson (i : Issue) : Json :=
  Json.obj [
    ("id", Json.str i.id),
    ("identifier", Json.str i.identifier),
    ("title", Json.str i.title),
    ("description", optStrUndef i.description),
    ("priority", Json.num i.priority),
    ("priorityLabel", Json.str i.priorityLabel),
    ("status", statusJson i.state),
    ("url", Json.str i.url),
    ("createdAt", Json.str i.createdAt),
    ("updatedAt", Json.str i.updatedAt),
    ("startedAt", optStrNull i.startedAt),
    ("completedAt", optStrNull i.completedAt),
    ("canceledAt", optStrNull i.canceledAt),
    ("dueDate", optStrUndef i.dueDate),
    ("assignee", optObj userRefJson i.assignee),
    ("creator", optObj userRefJson i.creator),
    ("team", optObj teamRefJson i.team),
    ("project", optObj projectRefJson i.project),
    ("parent", optObj parentRefJson i.parent),
    ("cycle", cycleFieldJson i.cycle),
    ("labels", Json.arr (i.labels.map labelSmallJson)),
    ("comments", Json.arr (i.comments.map commentSmallJson)),
    ("attachments", Json.arr
      ((i.attachments.filter (fun a => isImageUrl a.url)).map
        attachmentImageJson)),
    ("embeddedImages", Json.arr (embeddedImagesJson i.description)),
    ("estimate", estimateJson i.estimate),
    ("customerTicketCount", Json.num (i.customerTicketCount.getD 0)),
    ("previousIdentifiers", Json.arr (i.previousIdentifiers.map Json.str)),
    ("branchName", Json.str i.branchName),
    ("archivedAt", optStrNull i.archivedAt),
    ("autoArchivedAt", optStrNull i.autoArchivedAt),
    ("autoClosedAt", optStrNull i.autoClosedAt),
    ("trashed", Json.bool (i.trashed.getD false))
  ]

/-! ## Remaining per-tool projections -/

/-- `projectDetails` of `get_project` (lines 714-728).  Note `endsAt` is
assigned `project.completedAt`. -/
def projectDetailsJson (project : Project) : Json :=
  Json.obj [
    ("id", Json.str project.id),
    ("name", Json.str project.name),
    ("description", Json.str project.description),
    ("state", Json.str project.state),
    ("teamIds", Json.arr (project.teams.map (fun t => Json.str t.id))),
    ("url", Json.str project.url),
    ("createdAt", Json.str project.createdAt),
    ("updatedAt", Json.str project.updatedAt),
    ("startedAt", optStrUndef project.startedAt),
    ("endsAt", optStrUndef project.completedAt),
    ("completedAt", optStrUndef project.completedAt),
    ("canceledAt", optStrUndef project.canceledAt),
    ("progress", Json.num project.progress)
  ]

/-- `teamDetails` of `get_team` (lines 751-758). -/
def teamDetailsJson (team : Team) : Json :=
  Json.obj [
    ("id", Json.str team.id), ("name", Json.str team.name),
    ("key", Json.str team.key), ("description", optStrUndef team.description),
    ("createdAt", Json.str team.createdAt),
    ("updatedAt", Json.str team.updatedAt)
  ]

/-- One user of `list_users` (lines 777-787). -/
def userListJson (user : User) : Json :=
  Json.obj [
    ("id", Json.str user.id), ("name", Json.str user.name),
    ("email", Json.str user.email),
    ("displayName", Json.str user.displayName),
    ("avatarUrl", optStrUndef user.avatarUrl),
    ("statusEmoji", optStrUndef user.statusEmoji),
    ("statusLabel", optStrUndef user.statusLabel),
    ("isActive", Json.bool user.active), ("url", Json.str user.url)
  ]

/-- `userDetails` of `get_user` / `get_viewer` (lines 811-823, 839-851). -/
def userDetailsJson (user : User) : Json :=
  Json.obj [
    ("id", Json.str user.id), ("name", Json.str user.name),
    ("email", Json.str user.email),
    ("displayName", Json.str user.displayName),
    ("avatarUrl", optStrUndef user.avatarUrl),
    ("statusEmoji", optStrUndef user.statusEmoji),
    ("statusLabel", optStrUndef user.statusLabel),
    ("isActive", Json.bool user.active), ("url", Json.str user.url),
    ("createdAt", Json.str user.createdAt),
    ("updatedAt", Json.str user.updatedAt)
  ]

/-- One comment of `list_comments` (lines 879-889). -/
def commentFullJson (cm : Comment) : Json :=
  Json.obj [
    ("id", Json.str cm.id), ("body", Json.str cm.body),
    ("createdAt", Json.str cm.createdAt),
    ("updatedAt", Json.str cm.updatedAt),
    ("user", optObj userRefJson cm.user)
  ]

/-- One attachment of `list_attachments` (lines 918-924). -/
def attachmentFullJson (a : Attachment) : Json :=
  Json.obj [
    ("id", Json.str a.id), ("title", Json.str a.title),
    ("url", Json.str a.url), ("createdAt", Json.str a.createdAt),
    ("updatedAt", Json.str a.updatedAt)
  ]

/-- One search result of `search_issues` (lines 1094-1106). -/
def searchResultJson (i : Issue) : Json :=
  Json.obj [("id", Json.str i.id), ("title", Json.str i.title),
            ("status", statusJson i.state),
            ("assignee", assigneeNameJson i.assignee),
            ("priority", Json.num i.priority), ("url", Json.str i.url),
            ("metadata", i.metadata)]

/-- One workflow state of `list_workflow_states` (lines 1132-1139). -/
def stateJson (st : WorkflowState) : Json :=
  Json.obj [
    ("id", Json.str st.id), ("name", Json.str st.name),
    ("type", Json.str st.type), ("color", Json.str st.color),
    ("description", optStrUndef st.description),
    ("position", Json.num st.position)
  ]

/-- One label of `list_labels` (lines 1422-1434). -/
def labelFullJson (l : Label) : Json :=
  Json.obj [
    ("id", Json.str l.id), ("name", Json.str l.name),
    ("color", Json.str l.color),
    ("description", optStrUndef l.description),
    ("team", optObj teamRefJson l.team)
  ]

/-- One cycle of `list_cycles` (lines 1508-1517). -/
def cycleListJson (cy : Cycle) : Json :=
  Json.obj [
    ("id", Json.str cy.id), ("number", Json.num cy.number),
    ("name", optStrUndef cy.name),
    ("description", optStrUndef cy.description),
    ("startsAt", Json.str cy.startsAt), ("endsAt", Json.str cy.endsAt),
    ("completedAt", optStrUndef cy.completedAt),
    ("progress", Json.num cy.progress)
  ]

/-- One issue of a cycle in `get_cycle` (lines 1547-1557). -/
def cycleIssueJson (i : CycleIssue) : Json :=
  Json.obj [
    ("id", Json.str i.id), ("identifier", Json.str i.identifier),
    ("title", Json.str i.title), ("status", statusJson i.state),
    ("priority", Json.num i.priority), ("url", Json.str i.url)
  ]

/-- `cycleDetails` of `get_cycle` (lines 1560-1575). -/
def cycleDetailsJson (cy : Cycle) : Json :=
  Json.obj [
    ("id", Json.str cy.id), ("number", Json.num cy.number),
    ("name", optStrUndef cy.name),
    ("description", optStrUndef cy.description),
    ("startsAt", Json.str cy.startsAt), ("endsAt", Json.str cy.endsAt),
    ("completedAt", optStrUndef cy.completedAt),
    ("progress", Json.num cy.progress),
    ("team", optObj teamRefJson cy.team),
    ("issues", Json.arr (cy.issues.map cycleIssueJson))
  ]

/-- One sub-issue of `list_sub_issues` (lines 2177-2191). -/
def subIssueJson (s : SubIssue) : Json :=
  Json.obj [
    ("id", Json.str s.id), ("identifier", Json.str s.identifier),
    ("title", Json.str s.title), ("status", statusJson s.state),
    ("assignee", assigneeNameJson s.assignee),
    ("priority", Json.num s.priority), ("url", Json.str s.url)
  ]

/-! ## Filters built from arguments -/

/-- The filter built by `list_issues` (lines 964-972): truthy `teamId`,
`assigneeId`, `status` arguments become equality filters; page size
`args?.first ?? 50`. -/
def listIssuesFilter (args : Option Args) : IssuesFilter :=
  { first := (getNum args "first").getD 50
    teamId := if argTruthy args "teamId" then getStr args "teamId" else none
    assigneeId :=
      if argTruthy args "assigneeId" then getStr args "assigneeId" else none
    stateName := if argTruthy args "status" then getStr args "status" else none
  }

/-- The filter built by `get_issue_by_identifier` (lines 1185-1191):
`number eq parseInt(identifier.split('-')[1], 10)` and
`team.key eq identifier.split('-')[0]`, page size 1. -/
def identifierFilter (identifier : String) : IssuesFilter :=
  let parts := identifier.splitOn "-"
  { first := 1
    teamKey := some ((parts.get? 0).getD "")
    number := parseIntJS (parts.get? 1) }

/-- Deduplication of the merged label lists by id, keeping the first
occurrence (the `Set`-based filter at lines 1406-1413). -/
def dedupByIdAux (seen : List String) : List Label → List Label
  | [] => []
  | l :: ls =>
    if l.id ∈ seen then dedupByIdAux seen ls
    else l :: dedupByIdAux (l.id :: seen) ls

def dedupById (ls : List Label) : List Label :=
  dedupByIdAux [] ls

/-! ## Tool handlers

One definition per `case` block of the dispatch switch, in source order.
The duplicated `case` labels later in the switch (`list_labels`, `add_label`,
`remove_label`, `list_cycles`, `get_cycle`, `get_issue` at lines 1787-2159)
are dead code under JavaScript's first-match `switch` semantics; all of them
except `list_labels` are textually identical to the executed block, and the
differing duplicate is modelled as `listLabelsDupTool`. -/

/-- `get_project` (lines 700-738). -/
def getProjectTool (c : LinearClient) (args : Option Args) :
    Except String ToolResponse :=
  if !(argTruthy args "projectId") then Except.error "Project ID is required"
  else
    let pid := (getStr args "projectId").getD ""
    match c.run (c.project pid) with
    | Except.error e => Except.error e
    | Except.ok none => Except.error ("Project " ++ (pid ++ " not found"))
    | Except.ok (some project) => Except.ok (okResp (projectDetailsJson project))

/-- `get_team` (lines 740-768). -/
def getTeamTool (c : LinearClient) (args : Option Args) :
    Except String ToolResponse :=
  if !(argTruthy args "teamId") then Except.error "Team ID is required"
  else
    let tid := (getStr args "teamId").getD ""
    match c.run (c.team tid) with
    | Except.error e => Except.error e
    | Except.ok none => Except.error ("Team " ++ (tid ++ " not found"))
    | Except.ok (some team) => Except.ok (okResp (teamDetailsJson team))

/-- `list_users` (lines 770-798). -/
def listUsersTool (c : LinearClient) (args : Option Args) :
    Except String ToolResponse :=
  match c.run (c.users ((getNum args "first").getD 50)) with
  | Except.error e => Except.error e
  | Except.ok users => Except.ok (okResp (Json.arr (users.map userListJson)))

/-- `get_user` (lines 800-833). -/
def getUserTool (c : LinearClient) (args : Option Args) :
    Except String ToolResponse :=
  if !(argTruthy args "userId") then Except.error "User ID is required"
  else
    let uid := (getStr args "userId").getD ""
    match c.run (c.user uid) with
    | Except.error e => Except.error e
    | Except.ok none => Except.error ("User " ++ (uid ++ " not found"))
    | Except.ok (some user) => Except.ok (okResp (userDetailsJson user))

/-- `get_viewer` (lines 835-861). -/
def getViewerTool (c : LinearClient) (_args : Option Args) :
    Except String ToolResponse :=
  match c.run c.viewer with
  | Except.error e => Except.error e
  | Except.ok viewer => Except.ok (okResp (userDetailsJson viewer))

/-- `list_comments` (lines 863-900).  The page-size argument is forwarded to
the remote; the stored `comments` list models the returned page. -/
def listCommentsTool (c : LinearClient) (args : Option Args) :
    Except String ToolResponse :=
  if !(argTruthy args "issueId") then Except.error "Issue ID is required"
  else
    let iid := (getStr args "issueId").getD ""
    match c.run (c.issue iid) with
    | Except.error e => Except.error e
    | Except.ok none => Except.error ("Issue " ++ (iid ++ " not found"))
    | Except.ok (some issue) =>
      match c.run issue.comments with
      | Except.error e => Except.error e
      | Except.ok comments =>
        Except.ok (okResp (Json.arr (comments.map commentFullJson)))

/-- `list_attachments` (lines 902-935). -/
def listAttachmentsTool (c : LinearClient) (args : Option Args) :
    Except String ToolResponse :=
  if !(argTruthy args "issueId") then Except.error "Issue ID is required"
  else
    let iid := (getStr args "issueId").getD ""
    match c.run (c.issue iid) with
    | Except.error e => Except.error e
    | Except.ok none => Except.error ("Issue " ++ (iid ++ " not found"))
    | Except.ok (some issue) =>
      match c.run issue.attachments with
      | Except.error e => Except.error e
      | Except.ok attachments =>
        Except.ok (okResp (Json.arr (attachments.map attachmentFullJson)))

/-- `create_issue` (lines 937-960).  No existence check on `teamId`: the
input is forwarded to `linearClient.createIssue` as-is. -/
def createIssueTool (c : LinearClient) (args : Option Args) :
    Except String ToolResponse :=
  if !(argTruthy args "title") || !(argTruthy args "teamId") then
    Except.error "Title and teamId are required"
  else
    match c.run (c.createIssue
        { title := (getStr args "title").getD ""
          description := getStr args "description"
          teamId := (getStr args "teamId").getD ""
          assigneeId := getStr args "assigneeId"
          priority := getNum args "priority"
          labelIds := getList args "labels" }) with
    | Except.error e => Except.error e
    | Except.ok payload => Except.ok (okResp payload)

/-- `list_issues` (lines 962-997). -/
def listIssuesTool (c : LinearClient) (args : Option Args) :
    Except String ToolResponse :=
  match c.run (c.issues (listIssuesFilter args)) with
  | Except.error e => Except.error e
  | Except.ok issues =>
    Except.ok (okResp (Json.arr (issues.map listedIssueJson)))

/-- `update_issue` (lines 999-1026). -/
def updateIssueTool (c : LinearClient) (args : Option Args) :
    Except String ToolResponse :=
  if !(argTruthy args "issueId") then Except.error "Issue ID is required"
  else
    let iid := (getStr args "issueId").getD ""
    match c.run (c.issue iid) with
    | Except.error e => Except.error e
    | Except.ok none => Except.error ("Issue " ++ (iid ++ " not found"))
    | Except.ok (some _issue) =>
      match c.run (c.updateIssue iid
          { title := getStr args "title"
            description := getStr args "description"
            stateId := getStr args "stateId"
            assigneeId := getStr args "assigneeId"
            priority := getNum args "priority" }) with
      | Except.error e => Except.error e
      | Except.ok payload => Except.ok (okResp payload)

/-- `list_teams` (lines 1028-1047). -/
def listTeamsTool (c : LinearClient) (_args : Option Args) :
    Except String ToolResponse :=
  match c.run c.teams with
  | Except.error e => Except.error e
  | Except.ok teams =>
    Except.ok (okResp (Json.arr (teams.map (fun team =>
      Json.obj [("id", Json.str team.id), ("name", Json.str team.name),
                ("key", Json.str team.key),
                ("description", optStrUndef team.description)]))))

/-- `list_projects` (lines 1049-1081). -/
def listProjectsTool (c : LinearClient) (args : Option Args) :
    Except String ToolResponse :=
  match c.run (c.projects ((getNum args "first").getD 50)
      (if argTruthy args "teamId" then getStr args "teamId" else none)) with
  | Except.error e => Except.error e
  | Except.ok projects =>
    Except.ok (okResp (Json.arr (projects.map (fun project =>
      Json.obj [("id", Json.str project.id), ("name", Json.str project.name),
                ("description", Json.str project.description),
                ("state", Json.str project.state),
                ("teamIds", Json.arr
                  (project.teams.map (fun t => Json.str t.id)))]))))

/-- `search_issues` (lines 1083-1117). -/
def searchIssuesTool (c : LinearClient) (args : Option Args) :
    Except String ToolResponse :=
  if !(argTruthy args "query") then Except.error "Search query is required"
  else
    match c.run (c.searchIssues ((getStr args "query").getD "")
        ((getNum args "first").getD 50)) with
    | Except.error e => Except.error e
    | Except.ok results =>
      Except.ok (okResp (Json.arr (results.map searchResultJson)))

/-- `list_workflow_states` (lines 1119-1150). -/
def listWorkflowStatesTool (c : LinearClient) (args : Option Args) :
    Except String ToolResponse :=
  if !(argTruthy args "teamId") then Except.error "Team ID is required"
  else
    let tid := (getStr args "teamId").getD ""
    match c.run (c.team tid) with
    | Except.error e => Except.error e
    | Except.ok none => Except.error ("Team " ++ (tid ++ " not found"))
    | Except.ok (some team) =>
      match c.run team.states with
      | Except.error e => Except.error e
      | Except.ok states =>
        Except.ok (okResp (Json.arr (states.map stateJson)))

/-- `create_comment` (lines 1152-1176). -/
def createCommentTool (c : LinearClient) (args : Option Args) :
    Except String ToolResponse :=
  if !(argTruthy args "issueId") || !(argTruthy args "body") then
    Except.error "Issue ID and comment body are required"
  else
    let iid := (getStr args "issueId").getD ""
    match c.run (c.issue iid) with
    | Except.error e => Except.error e
    | Except.ok none => Except.error ("Issue " ++ (iid ++ " not found"))
    | Except.ok (some _issue) =>
      match c.run (c.createComment
          { issueId := iid, body := (getStr args "body").getD "" }) with
      | Except.error e => Except.error e
      | Except.ok payload => Except.ok (okResp payload)

/-- `get_issue_by_identifier` (lines 1178-1386).  The inner `try/catch`
(1199, 1382-1385) cannot fire in the model because relation resolution is
data access; the relation batch is read inside `issueDetailsJson`. -/
def getIssueByIdentifierTool (c : LinearClient) (args : Option Args) :
    Except String ToolResponse :=
  if !(argTruthy args "identifier") then
    Except.error "Issue identifier is required"
  else
    let ident := (getStr args "identifier").getD ""
    match c.run (c.issues (identifierFilter ident)) with
    | Except.error e => Except.error e
    | Except.ok [] => Except.error ("Issue " ++ (ident ++ " not found"))
    | Except.ok (issue :: _) => Except.ok (okResp (issueDetailsJson issue))

/-- The first (executed) `list_labels` case (lines 1388-1444): with a truthy
`teamId` it merges the team-filtered and workspace-level label queries and
deduplicates by id; otherwise one unfiltered query. -/
def listLabelsTool (c : LinearClient) (args : Option Args) :
    Except String ToolResponse :=
  if argTruthy args "teamId" then
    let tid := (getStr args "teamId").getD ""
    match c.run (c.issueLabels (LabelFilter.byTeam tid)) with
    | Except.error e => Except.error e
    | Except.ok teamLabels =>
      match c.run (c.issueLabels LabelFilter.noTeam) with
      | Except.error e => Except.error e
      | Except.ok workspaceLabels =>
        Except.ok (okResp (Json.arr
          ((dedupById (teamLabels ++ workspaceLabels)).map labelFullJson)))
  else
    match c.run (c.issueLabels LabelFilter.all) with
    | Except.error e => Except.error e
    | Except.ok allLabels =>
      Except.ok (okResp (Json.arr (allLabels.map labelFullJson)))

/-- The duplicate `list_labels` case (lines 1787-1818), unreachable under
first-match `switch` semantics: a single query, team-filtered when `teamId`
is truthy. -/
def listLabelsDupTool (c : LinearClient) (args : Option Args) :
    Except String ToolResponse :=
  match c.run (c.issueLabels
      (if argTruthy args "teamId" then
        LabelFilter.byTeam ((getStr args "teamId").getD "")
      else LabelFilter.all)) with
  | Except.error e => Except.error e
  | Except.ok labels =>
    Except.ok (okResp (Json.arr (labels.map labelFullJson)))

/-- `add_label` (lines 1446-1467). -/
def addLabelTool (c : LinearClient) (args : Option Args) :
    Except String ToolResponse :=
  if !(argTruthy args "name") || !(argTruthy args "color") ||
      !(argTruthy args "teamId") then
    Except.error "Label name, color, and teamId are required"
  else
    match c.run (c.createIssueLabel
        { name := (getStr args "name").getD ""
          color := (getStr args "color").getD ""
          teamId := (getStr args "teamId").getD ""
          description := getStr args "description" }) with
    | Except.error e => Except.error e
    | Except.ok payload => Except.ok (okResp payload)

/-- `remove_label` (lines 1469-1490). -/
def removeLabelTool (c : LinearClient) (args : Option Args) :
    Except String ToolResponse :=
  if !(argTruthy args "labelId") then Except.error "Label ID is required"
  else
    let lid := (getStr args "labelId").getD ""
    match c.run (c.issueLabel lid) with
    | Except.error e => Except.error e
    | Except.ok none => Except.error ("Label " ++ (lid ++ " not found"))
    | Except.ok (some _label) =>
      match c.run (c.deleteLabel lid) with
      | Except.error e => Except.error e
      | Except.ok _ =>
        Except.ok (okResp (Json.obj
          [("success", Json.bool true), ("labelId", Json.str lid)]))

/-- `list_cycles` (lines 1492-1528). -/
def listCyclesTool (c : LinearClient) (args : Option Args) :
    Except String ToolResponse :=
  if !(argTruthy args "teamId") then Except.error "Team ID is required"
  else
    let tid := (getStr args "teamId").getD ""
    match c.run (c.team tid) with
    | Except.error e => Except.error e
    | Except.ok none => Except.error ("Team " ++ (tid ++ " not found"))
    | Except.ok (some team) =>
      match c.run team.cycles with
      | Except.error e => Except.error e
      | Except.ok cycles =>
        Except.ok (okResp (Json.arr (cycles.map cycleListJson)))

/-- `get_cycle` (lines 1530-1585); `Promise.all([cycle.team, cycle.issues()])`
is one awaited pair. -/
def getCycleTool (c : LinearClient) (args : Option Args) :
    Except String ToolResponse :=
  if !(argTruthy args "cycleId") then Except.error "Cycle ID is required"
  else
    let cid := (getStr args "cycleId").getD ""
    match c.run (c.cycle cid) with
    | Except.error e => Except.error e
    | Except.ok none => Except.error ("Cycle " ++ (cid ++ " not found"))
    | Except.ok (some cy) =>
      match c.run (cy.team, cy.issues) with
      | Except.error e => Except.error e
      | Except.ok _ => Except.ok (okResp (cycleDetailsJson cy))

/-- `get_issue` (lines 1587-1785).  The ten-way `Promise.all` relation batch
and the issueDetails merge are read inside `issueDetailsJson`; the inner
`try/catch` (1598, 1781-1784) cannot fire because relation resolution is data
access in the model. -/
def getIssueTool (c : LinearClient) (args : Option Args) :
    Except String ToolResponse :=
  if !(argTruthy args "issueId") then Except.error "Issue ID is required"
  else
    let iid := (getStr args "issueId").getD ""
    match c.run (c.issue iid) with
    | Except.error e => Except.error e
    | Except.ok none => Except.error ("Issue " ++ (iid ++ " not found"))
    | Except.ok (some issue) => Except.ok (okResp (issueDetailsJson issue))

/-- `list_sub_issues` (lines 2161-2202). -/
def listSubIssuesTool (c : LinearClient) (args : Option Args) :
    Except String ToolResponse :=
  if !(argTruthy args "issueId") then
    Except.error "Parent issue ID is required"
  else
    let iid := (getStr args "issueId").getD ""
    match c.run (c.issue iid) with
    | Except.error e => Except.error e
    | Except.ok none => Except.error ("Issue " ++ (iid ++ " not found"))
    | Except.ok (some issue) =>
      match c.run issue.children with
      | Except.error e => Except.error e
      | Except.ok subIssues =>
        Except.ok (okResp (Json.arr (subIssues.map subIssueJson)))

/-- `create_sub_issue` (lines 2204-2233). -/
def createSubIssueTool (c : LinearClient) (args : Option Args) :
    Except String ToolResponse :=
  if !(argTruthy args "parentId") || !(argTruthy args "title") ||
      !(argTruthy args "teamId") then
    Except.error "Parent ID, title, and teamId are required"
  else
    let pid := (getStr args "parentId").getD ""
    match c.run (c.issue pid) with
    | Except.error e => Except.error e
    | Except.ok none => Except.error ("Parent issue " ++ (pid ++ " not found"))
    | Except.ok (some _parentIssue) =>
      match c.run (c.createIssue
          { title := (getStr args "title").getD ""
            description := getStr args "description"
            teamId := (getStr args "teamId").getD ""
            assigneeId := getStr args "assigneeId"
            priority := getNum args "priority"
            labelIds := getList args "labels"
            parentId := some pid }) with
      | Except.error e => Except.error e
      | Except.ok payload => Except.ok (okResp payload)

/-- `link_issues` (lines 2235-2280). -/
def linkIssuesTool (c : LinearClient) (args : Option Args) :
    Except String ToolResponse :=
  if !(argTruthy args "parentId") || !(argTruthy args "childId") then
    Except.error "Parent ID and child ID are required"
  else
    let pid := (getStr args "parentId").getD ""
    let cid := (getStr args "childId").getD ""
    match c.run (c.issue pid, c.issue cid) with
    | Except.error e => Except.error e
    | Except.ok (parentIssue?, childIssue?) =>
      match parentIssue? with
      | none => Except.error ("Parent issue " ++ (pid ++ " not found"))
      | some parentIssue =>
        match childIssue? with
        | none => Except.error ("Child issue " ++ (cid ++ " not found"))
        | some childIssue =>
          match c.run (c.updateIssue cid { parentId := some (some pid) }) with
          | Except.error e => Except.error e
          | Except.ok _ =>
            Except.ok (okResp (Json.obj [
              ("success", Json.bool true),
              ("message", Json.str ("Linked issue " ++
                (childIssue.identifier ++ (" as child of " ++
                  parentIssue.identifier)))),
              ("relationship", Json.obj [
                ("parent", Json.obj [
                  ("id", Json.str parentIssue.id),
                  ("identifier", Json.str parentIssue.identifier),
                  ("title", Json.str parentIssue.title)]),
                ("child", Json.obj [
                  ("id", Json.str childIssue.id),
                  ("identifier", Json.str childIssue.identifier),
                  ("title", Json.str childIssue.title)])])]))

/-- `unlink_issues` (lines 2282-2321). -/
def unlinkIssuesTool (c : LinearClient) (args : Option Args) :
    Except String ToolResponse :=
  if !(argTruthy args "parentId") || !(argTruthy args "childId") then
    Except.error "Parent ID and child ID are required"
  else
    let pid := (getStr args "parentId").getD ""
    let cid := (getStr args "childId").getD ""
    match c.run (c.issue pid, c.issue cid) with
    | Except.error e => Except.error e
    | Except.ok (parentIssue?, childIssue?) =>
      match parentIssue? with
      | none => Except.error ("Parent issue " ++ (pid ++ " not found"))
      | some parentIssue =>
        match childIssue? with
        | none => Except.error ("Child issue " ++ (cid ++ " not found"))
        | some childIssue =>
          match c.run childIssue.parent with
          | Except.error e => Except.error e
          | Except.ok currentParent =>
            if
              match currentParent with
              | none => true
              | some cp => !(cp.id == parentIssue.id)
            then
              Except.error ("Issue " ++ (childIssue.identifier ++
                (" is not a child of " ++ parentIssue.identifier)))
            else
              match c.run (c.updateIssue cid { parentId := some none }) with
              | Except.error e => Except.error e
              | Except.ok _ =>
                Except.ok (okResp (Json.obj [
                  ("success", Json.bool true),
                  ("message", Json.str ("Unlinked issue " ++
                    (childIssue.identifier ++ (" from parent " ++
                      parentIssue.identifier))))]))

/-! ## Dispatch and the error boundary -/

/-- The `switch (request.params.name)` of the call handler (lines 699-2328).
Case labels appear in source order; for the duplicated labels JavaScript
executes the first matching `case`, so only the first block of each pair is
reachable.  The `default` case throws
`McpError(ErrorCode.MethodNotFound, ...)`, whose `message` is
`"MCP error -32601: Unknown tool: <name>"`. -/
def dispatch (c : LinearClient) (req : ToolRequest) :
    Except String ToolResponse :=
  match req.name with
  | "get_project" => getProjectTool c req.arguments
  | "get_team" => getTeamTool c req.arguments
  | "list_users" => listUsersTool c req.arguments
  | "get_user" => getUserTool c req.arguments
  | "get_viewer" => getViewerTool c req.arguments
  | "list_comments" => listCommentsTool c req.arguments
  | "list_attachments" => listAttachmentsTool c req.arguments
  | "create_issue" => createIssueTool c req.arguments
  | "list_issues" => listIssuesTool c req.arguments
  | "update_issue" => updateIssueTool c req.arguments
  | "list_teams" => listTeamsTool c req.arguments
  | "list_projects" => listProjectsTool c req.arguments
  | "search_issues" => searchIssuesTool c req.arguments
  | "list_workflow_states" => listWorkflowStatesTool c req.arguments
  | "create_comment" => createCommentTool c req.arguments
  | "get_issue_by_identifier" => getIssueByIdentifierTool c req.arguments
  | "list_labels" => listLabelsTool c req.arguments
  | "add_label" => addLabelTool c req.arguments
  | "remove_label" => removeLabelTool c req.arguments
  | "list_cycles" => listCyclesTool c req.arguments
  | "get_cycle" => getCycleTool c req.arguments
  | "get_issue" => getIssueTool c req.arguments
  | "list_sub_issues" => listSubIssuesTool c req.arguments
  | "create_sub_issue" => createSubIssueTool c req.arguments
  | "link_issues" => linkIssuesTool c req.arguments
  | "unlink_issues" => unlinkIssuesTool c req.arguments
  | other => Except.error ("MCP error -32601: Unknown tool: " ++ other)

/-- The complete call handler: dispatch wrapped in the boundary `try/catch`
(lines 697-698, 2329-2340).  Every thrown error becomes a response with
`isError: true` and the text `"Linear API error: " ++ message`. -/
def callTool (c : LinearClient) (req : ToolRequest) : ToolResponse :=
  match dispatch c req with
  | Except.ok r => r
  | Except.error e =>
    { content := [Content.text ("Linear API error: " ++ e)], isError := true }

/-- A sequence of tool calls processed by the server: the handler closes only
over the client handle, so each response is the handler applied to that
request. -/
def processSeq (c : LinearClient) (reqs : List ToolRequest) :
    List ToolResponse :=
  reqs.map (callTool c)

/-! ## Declared tool schemas (ListToolsRequestSchema handler, lines 79-566)

Only the data the claims need: each tool's name and its `required` list.
The property descriptions of the schemas are omitted. -/

structure ToolSchema where
  name : String
  required : List String

def toolSchemas : List ToolSchema := [
  { name := "create_issue", required := ["title", "teamId"] },
  { name := "list_issues", required := [] },
  { name := "update_issue", required := ["issueId"] },
  { name := "list_teams", required := [] },
  { name := "list_projects", required := [] },
  { name := "search_issues", required := ["query"] },
  { name := "get_issue", required := ["issueId"] },
  { name := "list_workflow_states", required := ["teamId"] },
  { name := "create_comment", required := ["issueId", "body"] },
  { name := "get_issue_by_identifier", required := ["identifier"] },
  { name := "list_labels", required := [] },
  { name := "add_label", required := ["name", "color", "teamId"] },
  { name := "remove_label", required := ["labelId"] },
  { name := "list_cycles", required := ["teamId"] },
  { name := "get_cycle", required := ["cycleId"] },
  { name := "get_project", required := ["projectId"] },
  { name := "get_team", required := ["teamId"] },
  { name := "list_users", required := [] },
  { name := "get_user", required := ["userId"] },
  { name := "get_viewer", required := [] },
  { name := "list_comments", required := ["issueId"] },
  { name := "list_attachments", required := ["issueId"] },
  { name := "list_sub_issues", required := ["issueId"] },
  { name := "create_sub_issue", required := ["parentId", "title", "teamId"] },
  { name := "link_issues", required := ["parentId", "childId"] },
  { name := "unlink_issues", required := ["parentId", "childId"] }
]

def toolNames : List String := toolSchemas.map ToolSchema.name

/-- The `required` list of a tool's declared input schema. -/
def requiredArgs (t : String) : List String :=
  match toolSchemas.find? (fun s => s.name == t) with
  | some s => s.required
  | none => []

/-! ## External-call counts (for the concurrency/fan-out claim)

A `list_issues` invocation performs one `linearClient.issues` query and then,
for every returned node, awaits the lazy `issue.state` and `issue.assignee`
relations (lines 974-987); in the Linear SDK each such await on a present
relation issues its own remote fetch (an absent relation's getter returns
`undefined` without a request).  `list_labels` with a truthy `teamId` issues
two label queries sequentially (lines 1392-1403), otherwise one (line 1417). -/

def listIssuesExternalCalls (c : LinearClient) (args : Option Args) : Nat :=
  match c.fail with
  | some _ => 1
  | none =>
    1 + ((c.issues (listIssuesFilter args)).map (fun i =>
      (if i.state.isSome then 1 else 0) +
        (if i.assignee.isSome then 1 else 0))).sum

def listLabelsLabelQueryCalls (_c : LinearClient) (args : Option Args) : Nat :=
  if argTruthy args "teamId" then 2 else 1

/-! ## Sample data and environments for concrete instances -/

def sampleState : WorkflowState :=
  { id := "st1", name := "In Progress", type := "started", color := "#5e6ad2" }

def sampleUser : User :=
  { id := "u1", name := "Alice Example", email := "alice@example.com" }

def samplePngAttachment : Attachment :=
  { id := "att1", title := "Screenshot",
    url := "https://files.example.com/shot.PNG" }

def samplePdfAttachment : Attachment :=
  { id := "att2", title := "Design doc",
    url := "https://files.example.com/design.pdf" }

def sampleIssue : Issue :=
  { id := "I1", identifier := "ENG-1", title := "Fix crash",
    priority := 2, priorityLabel := "High",
    url := "https://linear.app/example/issue/ENG-1",
    state := some sampleState, assignee := some sampleUser,
    attachments := [samplePngAttachment, samplePdfAttachment] }

def sampleIssue2 : Issue := { sampleIssue with id := "I2", identifier := "ENG-2" }

def sampleTeamRef : TeamRef := { id := "T1", name := "Engineering", key := "ENG" }

def sampleProject : Project :=
  { id := "P1", name := "Apollo", state := "started",
    targetDate := some "2025-12-31", completedAt := some "2025-06-30" }

def labelTeamOnly : Label :=
  { id := "L1", name := "bug", color := "#ff0000", team := some sampleTeamRef }

def labelShared : Label := { id := "L2", name := "shared", color := "#00ff00" }

def labelWorkspace : Label := { id := "L3", name := "ws", color := "#0000ff" }

def emptyClient : LinearClient := {}

def failingClient : LinearClient := { fail := some "network unreachable" }

def issueClient : LinearClient :=
  { issue := fun iid => if iid == "I1" then some sampleIssue else none,
    issues := fun _ => [sampleIssue] }

def projectClient : LinearClient :=
  { project := fun pid => if pid == "P1" then some sampleProject else none }

/-- Remote that accepts any `createIssue` call, while no team exists. -/
def createOkClient : LinearClient :=
  { createIssue := fun _ => Json.obj [("id", Json.str "new-issue")] }

def linkClient : LinearClient :=
  { issue := fun iid => if iid == "I1" then some sampleIssue else none }

def envOneIssue : LinearClient := { issues := fun _ => [sampleIssue] }

def envTwoIssues : LinearClient :=
  { issues := fun _ => [sampleIssue, sampleIssue2] }

def labelClient : LinearClient :=
  { issueLabels := fun f =>
      match f with
      | LabelFilter.byTeam _ => [labelTeamOnly, labelShared]
      | LabelFilter.noTeam => [labelShared, labelWorkspace]
      | LabelFilter.all => [labelTeamOnly, labelShared, labelWorkspace] }

/-! ## Request builders for concrete statements -/

/-- A request with a single string argument. -/
def reqOf1 (t k v : String) : ToolRequest :=
  { name := t, arguments := some [(k, ArgValue.str v)] }

/-! ## Helper lemmas -/

theorem argTruthy_eq_false {args : Option Args} {k : String}
    (h : getStr args k = none) : argTruthy args k = false := by
  simp [argTruthy, h, truthyStr]

theorem truthyStr_of_ne {s : String} (h : s ≠ "") :
    truthyStr (some s) = true := by
  simp [truthyStr, h]

theorem charsContain_append_right (pat l1 l2 : List Char)
    (h : charsContain pat l2 = true) :
    charsContain pat (l1 ++ l2) = true := by
  induction l1 with
  | nil => simpa using h
  | cons a as ih =>
    simp only [List.cons_append, charsContain, Bool.or_eq_true]
    exact Or.inr ih

theorem strContains_append_right (s1 s2 pat : String)
    (h : strContains s2 pat = true) :
    strContains (s1 ++ s2) pat = true := by
  simp only [strContains, String.toList, String.data_append]
  exact charsContain_append_right _ _ _ h

/-- Any string ending in `" not found"` contains `"not found"`. -/
theorem strContains_notFound_tail (x : String) :
    strContains (x ++ " not found") "not found" = true :=
  strContains_append_right x " not found" "not found" (by decide)

/-! ## Claim C1 -/

/-- Claim C1: for every tool-call request, every failure thrown inside the
dispatch switch (missing required argument, entity not found, remote API
failure, unknown tool name) is caught at the dispatch boundary, and the
handler returns a response object with `isError` set to `true` and the
human-readable text `"Linear API error: " ++ message` — uniformly for all
error kinds, with no exception propagating to the caller (`callTool` is a
total function). -/
theorem C1_error_boundary (c : LinearClient) (req : ToolRequest) (e : String)
    (h : dispatch c req = Except.error e) :
    callTool c req =
      { content := [Content.text ("Linear API error: " ++ e)],
        isError := true } := by
  simp [callTool, h]

/-- Witness for C1 at the four failure kinds: unknown tool, missing required
argument, entity not found, remote API failure. -/
theorem C1_error_boundary_witness :
    callTool emptyClient { name := "explode", arguments := none } =
      { content :=
          [Content.text "Linear API error: MCP error -32601: Unknown tool: explode"],
        isError := true } ∧
    callTool emptyClient { name := "get_issue", arguments := none } =
      { content := [Content.text "Linear API error: Issue ID is required"],
        isError := true } ∧
    callTool emptyClient (reqOf1 "get_issue" "issueId" "I9") =
      { content := [Content.text "Linear API error: Issue I9 not found"],
        isError := true } ∧
    callTool failingClient { name := "list_teams", arguments := none } =
      { content := [Content.text "Linear API error: network unreachable"],
        isError := true } :=
  ⟨C1_error_boundary _ _ _ rfl, C1_error_boundary _ _ _ rfl,
   C1_error_boundary _ _ _ rfl, C1_error_boundary _ _ _ rfl⟩

/-! ## Claim C7 -/

/-- Claim C7: the call handler retains no state between invocations: for any
two tool-call requests with identical tool name and arguments, given an
identical remote client, the handler produces identical response payloads
regardless of which other tool calls were processed before or between them. -/
theorem C7_stateless_handler (c : LinearClient)
    (reqs1 reqs2 : List ToolRequest) (i j : Nat) (req : ToolRequest)
    (h1 : reqs1[i]? = some req) (h2 : reqs2[j]? = some req) :
    (processSeq c reqs1)[i]? = (processSeq c reqs2)[j]? := by
  simp [processSeq, List.getElem?_map, h1, h2]

/-- Witness for C7: the same `get_viewer` request surrounded by different
other calls yields the same response. -/
theorem C7_stateless_handler_witness :
    (processSeq emptyClient
        [{ name := "list_teams", arguments := none },
         { name := "get_viewer", arguments := none }])[1]? =
      (processSeq emptyClient [{ name := "get_viewer", arguments := none }])[0]? :=
  C7_stateless_handler emptyClient _ _ 1 0
    { name := "get_viewer", arguments := none } rfl rfl

/-! ## Claim C2 -/

/-- Auxiliary step for C2: a dispatch error whose normalized message contains
the normalized argument name yields an error-flagged response naming that
argument. -/
theorem missingArgOut (c : LinearClient) (t : String) (args : Option Args)
    (msg a : String)
    (hd : dispatch c { name := t, arguments := args } = Except.error msg)
    (hc : strContains (normalizeName ("Linear API error: " ++ msg))
        (normalizeName a) = true) :
    (callTool c { name := t, arguments := args }).isError = true ∧
      strContains
        (normalizeName (firstText (callTool c { name := t, arguments := args })))
        (normalizeName a) = true := by
  refine ⟨?_, ?_⟩
  · simp [callTool, hd]
  · simpa [callTool, hd, firstText] using hc

/-- Claim C2: for every tool and every argument listed as required in that
tool's declared input schema, invoking the tool with that argument omitted
(whatever other arguments are supplied) yields an error-flagged response
whose message names the missing argument (comparison after lower-casing and
dropping spaces, e.g. "Issue ID is required" names `issueId`); and every tool
whose schema lists no required arguments succeeds with no arguments object at
all, provided the remote is not failing. -/
theorem C2_required_argument_checks (c : LinearClient) (t a : String)
    (args : Option Args) (ht : t ∈ toolNames) :
    (a ∈ requiredArgs t → getStr args a = none →
      (callTool c { name := t, arguments := args }).isError = true ∧
        strContains
          (normalizeName (firstText (callTool c { name := t, arguments := args })))
          (normalizeName a) = true) ∧
    (requiredArgs t = [] → c.fail = none →
      (callTool c { name := t, arguments := none }).isError = false) := by
  have ht2 : t = "create_issue" ∨ t = "list_issues" ∨ t = "update_issue" ∨
      t = "list_teams" ∨ t = "list_projects" ∨ t = "search_issues" ∨
      t = "get_issue" ∨ t = "list_workflow_states" ∨ t = "create_comment" ∨
      t = "get_issue_by_identifier" ∨ t = "list_labels" ∨ t = "add_label" ∨
      t = "remove_label" ∨ t = "list_cycles" ∨ t = "get_cycle" ∨
      t = "get_project" ∨ t = "get_team" ∨ t = "list_users" ∨
      t = "get_user" ∨ t = "get_viewer" ∨ t = "list_comments" ∨
      t = "list_attachments" ∨ t = "list_sub_issues" ∨
      t = "create_sub_issue" ∨ t = "link_issues" ∨ t = "unlink_issues" := by
    simpa [toolNames, toolSchemas] using ht
  rcases ht2 with rfl | rfl | rfl | rfl | rfl | rfl | rfl | rfl | rfl | rfl |
    rfl | rfl | rfl | rfl | rfl | rfl | rfl | rfl | rfl | rfl | rfl | rfl |
    rfl | rfl | rfl | rfl
  · refine ⟨fun ha hnone => ?_, fun hreq _ => absurd (show (["title", "teamId"] : List String) = [] from hreq) (by simp)⟩
    have hd0 : dispatch c { name := "create_issue", arguments := args } = createIssueTool c args := rfl
    have harg : a = "title" ∨ a = "teamId" := by simpa using (show a ∈ (["title", "teamId"] : List String) from ha)
    rcases harg with rfl | rfl
    · exact missingArgOut c _ args "Title and teamId are required" _ (by rw [hd0]; simp [createIssueTool, argTruthy_eq_false hnone]) (by decide)
    · exact missingArgOut c _ args "Title and teamId are required" _ (by rw [hd0]; simp [createIssueTool, argTruthy_eq_false hnone]) (by decide)
  · refine ⟨fun ha _ => absurd (show a ∈ ([] : List String) from ha) (List.not_mem_nil a), fun _ hfail => ?_⟩
    have hd0 : dispatch c { name := "list_issues", arguments := none } = listIssuesTool c none := rfl
    simp [callTool, hd0, listIssuesTool, LinearClient.run, hfail, okResp, argTruthy, getStr, truthyStr, getNum]
  · refine ⟨fun ha hnone => ?_, fun hreq _ => absurd (show (["issueId"] : List String) = [] from hreq) (by simp)⟩
    have hd0 : dispatch c { name := "update_issue", arguments := args } = updateIssueTool c args := rfl
    have harg : a = "issueId" := by simpa using (show a ∈ (["issueId"] : List String) from ha)
    subst harg
    exact missingArgOut c _ args "Issue ID is required" _ (by rw [hd0]; simp [updateIssueTool, argTruthy_eq_false hnone]) (by decide)
  · refine ⟨fun ha _ => absurd (show a ∈ ([] : List String) from ha) (List.not_mem_nil a), fun _ hfail => ?_⟩
    have hd0 : dispatch c { name := "list_teams", arguments := none } = listTeamsTool c none := rfl
    simp [callTool, hd0, listTeamsTool, LinearClient.run, hfail, okResp, argTruthy, getStr, truthyStr, getNum]
  · refine ⟨fun ha _ => absurd (show a ∈ ([] : List String) from ha) (List.not_mem_nil a), fun _ hfail => ?_⟩
    have hd0 : dispatch c { name := "list_projects", arguments := none } = listProjectsTool c none := rfl
    simp [callTool, hd0, listProjectsTool, LinearClient.run, hfail, okResp, argTruthy, getStr, truthyStr, getNum]
  · refine ⟨fun ha hnone => ?_, fun hreq _ => absurd (show (["query"] : List String) = [] from hreq) (by simp)⟩
    have hd0 : dispatch c { name := "search_issues", arguments := args } = searchIssuesTool c args := rfl
    have harg : a = "query" := by simpa using (show a ∈ (["query"] : List String) from ha)
    subst harg
    exact missingArgOut c _ args "Search query is required" _ (by rw [hd0]; simp [searchIssuesTool, argTruthy_eq_false hnone]) (by decide)
  · refine ⟨fun ha hnone => ?_, fun hreq _ => absurd (show (["issueId"] : List String) = [] from hreq) (by simp)⟩
    have hd0 : dispatch c { name := "get_issue", arguments := args } = getIssueTool c args := rfl
    have harg : a = "issueId" := by simpa using (show a ∈ (["issueId"] : List String) from ha)
    subst harg
    exact missingArgOut c _ args "Issue ID is required" _ (by rw [hd0]; simp [getIssueTool, argTruthy_eq_false hnone]) (by decide)
  · refine ⟨fun ha hnone => ?_, fun hreq _ => absurd (show (["teamId"] : List String) = [] from hreq) (by simp)⟩
    have hd0 : dispatch c { name := "list_workflow_states", arguments := args } = listWorkflowStatesTool c args := rfl
    have harg : a = "teamId" := by simpa using (show a ∈ (["teamId"] : List String) from ha)
    subst harg
    exact missingArgOut c _ args "Team ID is required" _ (by rw [hd0]; simp [listWorkflowStatesTool, argTruthy_eq_false hnone]) (by decide)
  · refine ⟨fun ha hnone => ?_, fun hreq _ => absurd (show (["issueId", "body"] : List String) = [] from hreq) (by simp)⟩
    have hd0 : dispatch c { name := "create_comment", arguments := args } = createCommentTool c args := rfl
    have harg : a = "issueId" ∨ a = "body" := by simpa using (show a ∈ (["issueId", "body"] : List String) from ha)
    rcases harg with rfl | rfl
    · exact missingArgOut c _ args "Issue ID and comment body are required" _ (by rw [hd0]; simp [createCommentTool, argTruthy_eq_false hnone]) (by decide)
    · exact missingArgOut c _ args "Issue ID and comment body are required" _ (by rw [hd0]; simp [createCommentTool, argTruthy_eq_false hnone]) (by decide)
  · refine ⟨fun ha hnone => ?_, fun hreq _ => absurd (show (["identifier"] : List String) = [] from hreq) (by simp)⟩
    have hd0 : dispatch c { name := "get_issue_by_identifier", arguments := args } = getIssueByIdentifierTool c args := rfl
    have harg : a = "identifier" := by simpa using (show a ∈ (["identifier"] : List String) from ha)
    subst harg
    exact missingArgOut c _ args "Issue identifier is required" _ (by rw [hd0]; simp [getIssueByIdentifierTool, argTruthy_eq_false hnone]) (by decide)
  · refine ⟨fun ha _ => absurd (show a ∈ ([] : List String) from ha) (List.not_mem_nil a), fun _ hfail => ?_⟩
    have hd0 : dispatch c { name := "list_labels", arguments := none } = listLabelsTool c none := rfl
    simp [callTool, hd0, listLabelsTool, LinearClient.run, hfail, okResp, argTruthy, getStr, truthyStr, getNum]
  · refine ⟨fun ha hnone => ?_, fun hreq _ => absurd (show (["name", "color", "teamId"] : List String) = [] from hreq) (by simp)⟩
    have hd0 : dispatch c { name := "add_label", arguments := args } = addLabelTool c args := rfl
    have harg : a = "name" ∨ a = "color" ∨ a = "teamId" := by simpa using (show a ∈ (["name", "color", "teamId"] : List String) from ha)
    rcases harg with rfl | rfl | rfl
    · exact missingArgOut c _ args "Label name, color, and teamId are required" _ (by rw [hd0]; simp [addLabelTool, argTruthy_eq_false hnone]) (by decide)
    · exact missingArgOut c _ args "Label name, color, and teamId are required" _ (by rw [hd0]; simp [addLabelTool, argTruthy_eq_false hnone]) (by decide)
    · exact missingArgOut c _ args "Label name, color, and teamId are required" _ (by rw [hd0]; simp [addLabelTool, argTruthy_eq_false hnone]) (by decide)
  · refine ⟨fun ha hnone => ?_, fun hreq _ => absurd (show (["labelId"] : List String) = [] from hreq) (by simp)⟩
    have hd0 : dispatch c { name := "remove_label", arguments := args } = removeLabelTool c args := rfl
    have harg : a = "labelId" := by simpa using (show a ∈ (["labelId"] : List String) from ha)
    subst harg
    exact missingArgOut c _ args "Label ID is required" _ (by rw [hd0]; simp [removeLabelTool, argTruthy_eq_false hnone]) (by decide)
  · refine ⟨fun ha hnone => ?_, fun hreq _ => absurd (show (["teamId"] : List String) = [] from hreq) (by simp)⟩
    have hd0 : dispatch c { name := "list_cycles", arguments := args } = listCyclesTool c args := rfl
    have harg : a = "teamId" := by simpa using (show a ∈ (["teamId"] : List String) from ha)
    subst harg
    exact missingArgOut c _ args "Team ID is required" _ (by rw [hd0]; simp [listCyclesTool, argTruthy_eq_false hnone]) (by decide)
  · refine ⟨fun ha hnone => ?_, fun hreq _ => absurd (show (["cycleId"] : List String) = [] from hreq) (by simp)⟩
    have hd0 : dispatch c { name := "get_cycle", arguments := args } = getCycleTool c args := rfl
    have harg : a = "cycleId" := by simpa using (show a ∈ (["cycleId"] : List String) from ha)
    subst harg
    exact missingArgOut c _ args "Cycle ID is required" _ (by rw [hd0]; simp [getCycleTool, argTruthy_eq_false hnone]) (by decide)
  · refine ⟨fun ha hnone => ?_, fun hreq _ => absurd (show (["projectId"] : List String) = [] from hreq) (by simp)⟩
    have hd0 : dispatch c { name := "get_project", arguments := args } = getProjectTool c args := rfl
    have harg : a = "projectId" := by simpa using (show a ∈ (["projectId"] : List String) from ha)
    subst harg
    exact missingArgOut c _ args "Project ID is required" _ (by rw [hd0]; simp [getProjectTool, argTruthy_eq_false hnone]) (by decide)
  · refine ⟨fun ha hnone => ?_, fun hreq _ => absurd (show (["teamId"] : List String) = [] from hreq) (by simp)⟩
    have hd0 : dispatch c { name := "get_team", arguments := args } = getTeamTool c args := rfl
    have harg : a = "teamId" := by simpa using (show a ∈ (["teamId"] : List String) from ha)
    subst harg
    exact missingArgOut c _ args "Team ID is required" _ (by rw [hd0]; simp [getTeamTool, argTruthy_eq_false hnone]) (by decide)
  · refine ⟨fun ha _ => absurd (show a ∈ ([] : List String) from ha) (List.not_mem_nil a), fun _ hfail => ?_⟩
    have hd0 : dispatch c { name := "list_users", arguments := none } = listUsersTool c none := rfl
    simp [callTool, hd0, listUsersTool, LinearClient.run, hfail, okResp, argTruthy, getStr, truthyStr, getNum]
  · refine ⟨fun ha hnone => ?_, fun hreq _ => absurd (show (["userId"] : List String) = [] from hreq) (by simp)⟩
    have hd0 : dispatch c { name := "get_user", arguments := args } = getUserTool c args := rfl
    have harg : a = "userId" := by simpa using (show a ∈ (["userId"] : List String) from ha)
    subst harg
    exact missingArgOut c _ args "User ID is required" _ (by rw [hd0]; simp [getUserTool, argTruthy_eq_false hnone]) (by decide)
  · refine ⟨fun ha _ => absurd (show a ∈ ([] : List String) from ha) (List.not_mem_nil a), fun _ hfail => ?_⟩
    have hd0 : dispatch c { name := "get_viewer", arguments := none } = getViewerTool c none := rfl
    simp [callTool, hd0, getViewerTool, LinearClient.run, hfail, okResp, argTruthy, getStr, truthyStr, getNum]
  · refine ⟨fun ha hnone => ?_, fun hreq _ => absurd (show (["issueId"] : List String) = [] from hreq) (by simp)⟩
    have hd0 : dispatch c { name := "list_comments", arguments := args } = listCommentsTool c args := rfl
    have harg : a = "issueId" := by simpa using (show a ∈ (["issueId"] : List String) from ha)
    subst harg
    exact missingArgOut c _ args "Issue ID is required" _ (by rw [hd0]; simp [listCommentsTool, argTruthy_eq_false hnone]) (by decide)
  · refine ⟨fun ha hnone => ?_, fun hreq _ => absurd (show (["issueId"] : List String) = [] from hreq) (by simp)⟩
    have hd0 : dispatch c { name := "list_attachments", arguments := args } = listAttachmentsTool c args := rfl
    have harg : a = "issueId" := by simpa using (show a ∈ (["issueId"] : List String) from ha)
    subst harg
    exact missingArgOut c _ args "Issue ID is required" _ (by rw [hd0]; simp [listAttachmentsTool, argTruthy_eq_false hnone]) (by decide)
  · refine ⟨fun ha hnone => ?_, fun hreq _ => absurd (show (["issueId"] : List String) = [] from hreq) (by simp)⟩
    have hd0 : dispatch c { name := "list_sub_issues", arguments := args } = listSubIssuesTool c args := rfl
    have harg : a = "issueId" := by simpa using (show a ∈ (["issueId"] : List String) from ha)
    subst harg
    exact missingArgOut c _ args "Parent issue ID is required" _ (by rw [hd0]; simp [listSubIssuesTool, argTruthy_eq_false hnone]) (by decide)
  · refine ⟨fun ha hnone => ?_, fun hreq _ => absurd (show (["parentId", "title", "teamId"] : List String) = [] from hreq) (by simp)⟩
    have hd0 : dispatch c { name := "create_sub_issue", arguments := args } = createSubIssueTool c args := rfl
    have harg : a = "parentId" ∨ a = "title" ∨ a = "teamId" := by simpa using (show a ∈ (["parentId", "title", "teamId"] : List String) from ha)
    rcases harg with rfl | rfl | rfl
    · exact missingArgOut c _ args "Parent ID, title, and teamId are required" _ (by rw [hd0]; simp [createSubIssueTool, argTruthy_eq_false hnone]) (by decide)
    · exact missingArgOut c _ args "Parent ID, title, and teamId are required" _ (by rw [hd0]; simp [createSubIssueTool, argTruthy_eq_false hnone]) (by decide)
    · exact missingArgOut c _ args "Parent ID, title, and teamId are required" _ (by rw [hd0]; simp [createSubIssueTool, argTruthy_eq_false hnone]) (by decide)
  · refine ⟨fun ha hnone => ?_, fun hreq _ => absurd (show (["parentId", "childId"] : List String) = [] from hreq) (by simp)⟩
    have hd0 : dispatch c { name := "link_issues", arguments := args } = linkIssuesTool c args := rfl
    have harg : a = "parentId" ∨ a = "childId" := by simpa using (show a ∈ (["parentId", "childId"] : List String) from ha)
    rcases harg with rfl | rfl
    · exact missingArgOut c _ args "Parent ID and child ID are required" _ (by rw [hd0]; simp [linkIssuesTool, argTruthy_eq_false hnone]) (by decide)
    · exact missingArgOut c _ args "Parent ID and child ID are required" _ (by rw [hd0]; simp [linkIssuesTool, argTruthy_eq_false hnone]) (by decide)
  · refine ⟨fun ha hnone => ?_, fun hreq _ => absurd (show (["parentId", "childId"] : List String) = [] from hreq) (by simp)⟩
    have hd0 : dispatch c { name := "unlink_issues", arguments := args } = unlinkIssuesTool c args := rfl
    have harg : a = "parentId" ∨ a = "childId" := by simpa using (show a ∈ (["parentId", "childId"] : List String) from ha)
    rcases harg with rfl | rfl
    · exact missingArgOut c _ args "Parent ID and child ID are required" _ (by rw [hd0]; simp [unlinkIssuesTool, argTruthy_eq_false hnone]) (by decide)
    · exact missingArgOut c _ args "Parent ID and child ID are required" _ (by rw [hd0]; simp [unlinkIssuesTool, argTruthy_eq_false hnone]) (by decide)

/-- Witness for C2: omitting `issueId` from `get_issue` gives an error that
names it, and `list_teams` (no required arguments) succeeds without any. -/
theorem C2_required_argument_checks_witness :
    ((callTool emptyClient { name := "get_issue", arguments := none }).isError = true ∧
      strContains
        (normalizeName
          (firstText (callTool emptyClient { name := "get_issue", arguments := none })))
        (normalizeName "issueId") = true) ∧
    (callTool emptyClient { name := "list_teams", arguments := none }).isError = false :=
  ⟨(C2_required_argument_checks emptyClient "get_issue" "issueId" none
      (by decide)).1 (by decide) rfl,
   (C2_required_argument_checks emptyClient "list_teams" "x" none
      (by decide)).2 rfl rfl⟩

/-! ## Claim C3 -/

/-- An error-flagged response whose message contains "not found". -/
def notFoundResp (r : ToolResponse) : Prop :=
  r.isError = true ∧ strContains (firstText r) "not found" = true

/-- Auxiliary step for C3: a dispatch error whose message ends in
`" not found"` yields a "not found" error response. -/
theorem notFoundOut (c : LinearClient) (req : ToolRequest) (pre x : String)
    (hd : dispatch c req = Except.error (pre ++ (x ++ " not found"))) :
    notFoundResp (callTool c req) := by
  constructor
  · simp [callTool, hd]
  · simp only [callTool, hd, firstText]
    exact strContains_append_right _ _ _
      (strContains_append_right _ _ _ (strContains_notFound_tail x))

/-- Claim C3 (amended): for every operation that checks its referenced
entity — get_project, get_team, get_user, get_issue, get_cycle, update_issue,
create_comment, remove_label, list_comments, list_attachments, list_cycles,
list_workflow_states, list_sub_issues, create_sub_issue (parentId),
link_issues, unlink_issues (parentId and childId), get_issue_by_identifier —
an ID (or identifier) resolving to no entity yields an error-flagged response
whose message contains "not found".  (`create_issue` is excluded: it performs
no such check, see the counterexample.) -/
theorem C3_not_found_checks (c : LinearClient) (id id2 : String)
    (hfail : c.fail = none) (h1 : id ≠ "") (h2 : id2 ≠ "") :
    (c.project id = none → notFoundResp (callTool c (reqOf1 "get_project" "projectId" id))) ∧
    (c.team id = none → notFoundResp (callTool c (reqOf1 "get_team" "teamId" id))) ∧
    (c.user id = none → notFoundResp (callTool c (reqOf1 "get_user" "userId" id))) ∧
    (c.issue id = none → notFoundResp (callTool c (reqOf1 "get_issue" "issueId" id))) ∧
    (c.cycle id = none → notFoundResp (callTool c (reqOf1 "get_cycle" "cycleId" id))) ∧
    (c.issue id = none → notFoundResp (callTool c (reqOf1 "update_issue" "issueId" id))) ∧
    (c.issueLabel id = none → notFoundResp (callTool c (reqOf1 "remove_label" "labelId" id))) ∧
    (c.issue id = none → notFoundResp (callTool c (reqOf1 "list_comments" "issueId" id))) ∧
    (c.issue id = none → notFoundResp (callTool c (reqOf1 "list_attachments" "issueId" id))) ∧
    (c.team id = none → notFoundResp (callTool c (reqOf1 "list_cycles" "teamId" id))) ∧
    (c.team id = none → notFoundResp (callTool c (reqOf1 "list_workflow_states" "teamId" id))) ∧
    (c.issue id = none → notFoundResp (callTool c (reqOf1 "list_sub_issues" "issueId" id))) ∧
    (c.issue id = none → notFoundResp (callTool c { name := "create_comment", arguments := some [("issueId", ArgValue.str id), ("body", ArgValue.str "sample body")] })) ∧
    (c.issue id = none → notFoundResp (callTool c { name := "create_sub_issue", arguments := some [("parentId", ArgValue.str id), ("title", ArgValue.str "Sample title"), ("teamId", ArgValue.str "T1")] })) ∧
    (c.issue id = none → notFoundResp (callTool c { name := "link_issues", arguments := some [("parentId", ArgValue.str id), ("childId", ArgValue.str id2)] })) ∧
    ((c.issue id).isSome = true → c.issue id2 = none → notFoundResp (callTool c { name := "link_issues", arguments := some [("parentId", ArgValue.str id), ("childId", ArgValue.str id2)] })) ∧
    (c.issue id = none → notFoundResp (callTool c { name := "unlink_issues", arguments := some [("parentId", ArgValue.str id), ("childId", ArgValue.str id2)] })) ∧
    ((c.issue id).isSome = true → c.issue id2 = none → notFoundResp (callTool c { name := "unlink_issues", arguments := some [("parentId", ArgValue.str id), ("childId", ArgValue.str id2)] })) ∧
    (c.issues (identifierFilter id) = [] → notFoundResp (callTool c (reqOf1 "get_issue_by_identifier" "identifier" id))) := by
  refine ⟨?_, ?_, ?_, ?_, ?_, ?_, ?_, ?_, ?_, ?_, ?_, ?_, ?_, ?_, ?_, ?_, ?_, ?_, ?_⟩
  · intro h
    have et : argTruthy (some [("projectId", ArgValue.str id)]) "projectId" = true := by
      rw [show argTruthy (some [("projectId", ArgValue.str id)]) "projectId" = truthyStr (some id) from rfl]
      exact truthyStr_of_ne h1
    have eg : getStr (some [("projectId", ArgValue.str id)]) "projectId" = some id := rfl
    refine notFoundOut c _ "Project " id ?_
    rw [show dispatch c (reqOf1 "get_project" "projectId" id) = getProjectTool c (some [("projectId", ArgValue.str id)]) from rfl]
    simp [getProjectTool, et, eg, LinearClient.run, hfail, h]
  · intro h
    have et : argTruthy (some [("teamId", ArgValue.str id)]) "teamId" = true := by
      rw [show argTruthy (some [("teamId", ArgValue.str id)]) "teamId" = truthyStr (some id) from rfl]
      exact truthyStr_of_ne h1
    have eg : getStr (some [("teamId", ArgValue.str id)]) "teamId" = some id := rfl
    refine notFoundOut c _ "Team " id ?_
    rw [show dispatch c (reqOf1 "get_team" "teamId" id) = getTeamTool c (some [("teamId", ArgValue.str id)]) from rfl]
    simp [getTeamTool, et, eg, LinearClient.run, hfail, h]
  · intro h
    have et : argTruthy (some [("userId", ArgValue.str id)]) "userId" = true := by
      rw [show argTruthy (some [("userId", ArgValue.str id)]) "userId" = truthyStr (some id) from rfl]
      exact truthyStr_of_ne h1
    have eg : getStr (some [("userId", ArgValue.str id)]) "userId" = some id := rfl
    refine notFoundOut c _ "User " id ?_
    rw [show dispatch c (reqOf1 "get_user" "userId" id) = getUserTool c (some [("userId", ArgValue.str id)]) from rfl]
    simp [getUserTool, et, eg, LinearClient.run, hfail, h]
  · intro h
    have et : argTruthy (some [("issueId", ArgValue.str id)]) "issueId" = true := by
      rw [show argTruthy (some [("issueId", ArgValue.str id)]) "issueId" = truthyStr (some id) from rfl]
      exact truthyStr_of_ne h1
    have eg : getStr (some [("issueId", ArgValue.str id)]) "issueId" = some id := rfl
    refine notFoundOut c _ "Issue " id ?_
    rw [show dispatch c (reqOf1 "get_issue" "issueId" id) = getIssueTool c (some [("issueId", ArgValue.str id)]) from rfl]
    simp [getIssueTool, et, eg, LinearClient.run, hfail, h]
  · intro h
    have et : argTruthy (some [("cycleId", ArgValue.str id)]) "cycleId" = true := by
      rw [show argTruthy (some [("cycleId", ArgValue.str id)]) "cycleId" = truthyStr (some id) from rfl]
      exact truthyStr_of_ne h1
    have eg : getStr (some [("cycleId", ArgValue.str id)]) "cycleId" = some id := rfl
    refine notFoundOut c _ "Cycle " id ?_
    rw [show dispatch c (reqOf1 "get_cycle" "cycleId" id) = getCycleTool c (some [("cycleId", ArgValue.str id)]) from rfl]
    simp [getCycleTool, et, eg, LinearClient.run, hfail, h]
  · intro h
    have et : argTruthy (some [("issueId", ArgValue.str id)]) "issueId" = true := by
      rw [show argTruthy (some [("issueId", ArgValue.str id)]) "issueId" = truthyStr (some id) from rfl]
      exact truthyStr_of_ne h1
    have eg : getStr (some [("issueId", ArgValue.str id)]) "issueId" = some id := rfl
    refine notFoundOut c _ "Issue " id ?_
    rw [show dispatch c (reqOf1 "update_issue" "issueId" id) = updateIssueTool c (some [("issueId", ArgValue.str id)]) from rfl]
    simp [updateIssueTool, et, eg, LinearClient.run, hfail, h]
  · intro h
    have et : argTruthy (some [("labelId", ArgValue.str id)]) "labelId" = true := by
      rw [show argTruthy (some [("labelId", ArgValue.str id)]) "labelId" = truthyStr (some id) from rfl]
      exact truthyStr_of_ne h1
    have eg : getStr (some [("labelId", ArgValue.str id)]) "labelId" = some id := rfl
    refine notFoundOut c _ "Label " id ?_
    rw [show dispatch c (reqOf1 "remove_label" "labelId" id) = removeLabelTool c (some [("labelId", ArgValue.str id)]) from rfl]
    simp [removeLabelTool, et, eg, LinearClient.run, hfail, h]
  · intro h
    have et : argTruthy (some [("issueId", ArgValue.str id)]) "issueId" = true := by
      rw [show argTruthy (some [("issueId", ArgValue.str id)]) "issueId" = truthyStr (some id) from rfl]
      exact truthyStr_of_ne h1
    have eg : getStr (some [("issueId", ArgValue.str id)]) "issueId" = some id := rfl
    refine notFoundOut c _ "Issue " id ?_
    rw [show dispatch c (reqOf1 "list_comments" "issueId" id) = listCommentsTool c (some [("issueId", ArgValue.str id)]) from rfl]
    simp [listCommentsTool, et, eg, LinearClient.run, hfail, h]
  · intro h
    have et : argTruthy (some [("issueId", ArgValue.str id)]) "issueId" = true := by
      rw [show argTruthy (some [("issueId", ArgValue.str id)]) "issueId" = truthyStr (some id) from rfl]
      exact truthyStr_of_ne h1
    have eg : getStr (some [("issueId", ArgValue.str id)]) "issueId" = some id := rfl
    refine notFoundOut c _ "Issue " id ?_
    rw [show dispatch c (reqOf1 "list_attachments" "issueId" id) = listAttachmentsTool c (some [("issueId", ArgValue.str id)]) from rfl]
    simp [listAttachmentsTool, et, eg, LinearClient.run, hfail, h]
  · intro h
    have et : argTruthy (some [("teamId", ArgValue.str id)]) "teamId" = true := by
      rw [show argTruthy (some [("teamId", ArgValue.str id)]) "teamId" = truthyStr (some id) from rfl]
      exact truthyStr_of_ne h1
    have eg : getStr (some [("teamId", ArgValue.str id)]) "teamId" = some id := rfl
    refine notFoundOut c _ "Team " id ?_
    rw [show dispatch c (reqOf1 "list_cycles" "teamId" id) = listCyclesTool c (some [("teamId", ArgValue.str id)]) from rfl]
    simp [listCyclesTool, et, eg, LinearClient.run, hfail, h]
  · intro h
    have et : argTruthy (some [("teamId", ArgValue.str id)]) "teamId" = true := by
      rw [show argTruthy (some [("teamId", ArgValue.str id)]) "teamId" = truthyStr (some id) from rfl]
      exact truthyStr_of_ne h1
    have eg : getStr (some [("teamId", ArgValue.str id)]) "teamId" = some id := rfl
    refine notFoundOut c _ "Team " id ?_
    rw [show dispatch c (reqOf1 "list_workflow_states" "teamId" id) = listWorkflowStatesTool c (some [("teamId", ArgValue.str id)]) from rfl]
    simp [listWorkflowStatesTool, et, eg, LinearClient.run, hfail, h]
  · intro h
    have et : argTruthy (some [("issueId", ArgValue.str id)]) "issueId" = true := by
      rw [show argTruthy (some [("issueId", ArgValue.str id)]) "issueId" = truthyStr (some id) from rfl]
      exact truthyStr_of_ne h1
    have eg : getStr (some [("issueId", ArgValue.str id)]) "issueId" = some id := rfl
    refine notFoundOut c _ "Issue " id ?_
    rw [show dispatch c (reqOf1 "list_sub_issues" "issueId" id) = listSubIssuesTool c (some [("issueId", ArgValue.str id)]) from rfl]
    simp [listSubIssuesTool, et, eg, LinearClient.run, hfail, h]
  · intro h
    have et : argTruthy (some [("issueId", ArgValue.str id), ("body", ArgValue.str "sample body")]) "issueId" = true := by
      rw [show argTruthy (some [("issueId", ArgValue.str id), ("body", ArgValue.str "sample body")]) "issueId" = truthyStr (some id) from rfl]
      exact truthyStr_of_ne h1
    have eb : argTruthy (some [("issueId", ArgValue.str id), ("body", ArgValue.str "sample body")]) "body" = true := rfl
    have eg : getStr (some [("issueId", ArgValue.str id), ("body", ArgValue.str "sample body")]) "issueId" = some id := rfl
    refine notFoundOut c _ "Issue " id ?_
    rw [show dispatch c { name := "create_comment", arguments := some [("issueId", ArgValue.str id), ("body", ArgValue.str "sample body")] } = createCommentTool c (some [("issueId", ArgValue.str id), ("body", ArgValue.str "sample body")]) from rfl]
    simp [createCommentTool, et, eb, eg, LinearClient.run, hfail, h]
  · intro h
    have et : argTruthy (some [("parentId", ArgValue.str id), ("title", ArgValue.str "Sample title"), ("teamId", ArgValue.str "T1")]) "parentId" = true := by
      rw [show argTruthy (some [("parentId", ArgValue.str id), ("title", ArgValue.str "Sample title"), ("teamId", ArgValue.str "T1")]) "parentId" = truthyStr (some id) from rfl]
      exact truthyStr_of_ne h1
    have e2 : argTruthy (some [("parentId", ArgValue.str id), ("title", ArgValue.str "Sample title"), ("teamId", ArgValue.str "T1")]) "title" = true := rfl
    have e3 : argTruthy (some [("parentId", ArgValue.str id), ("title", ArgValue.str "Sample title"), ("teamId", ArgValue.str "T1")]) "teamId" = true := rfl
    have eg : getStr (some [("parentId", ArgValue.str id), ("title", ArgValue.str "Sample title"), ("teamId", ArgValue.str "T1")]) "parentId" = some id := rfl
    refine notFoundOut c _ "Parent issue " id ?_
    rw [show dispatch c { name := "create_sub_issue", arguments := some [("parentId", ArgValue.str id), ("title", ArgValue.str "Sample title"), ("teamId", ArgValue.str "T1")] } = createSubIssueTool c (some [("parentId", ArgValue.str id), ("title", ArgValue.str "Sample title"), ("teamId", ArgValue.str "T1")]) from rfl]
    simp [createSubIssueTool, et, e2, e3, eg, LinearClient.run, hfail, h]
  · intro h
    have ep : argTruthy (some [("parentId", ArgValue.str id), ("childId", ArgValue.str id2)]) "parentId" = true := by
      rw [show argTruthy (some [("parentId", ArgValue.str id), ("childId", ArgValue.str id2)]) "parentId" = truthyStr (some id) from rfl]
      exact truthyStr_of_ne h1
    have ec : argTruthy (some [("parentId", ArgValue.str id), ("childId", ArgValue.str id2)]) "childId" = true := by
      rw [show argTruthy (some [("parentId", ArgValue.str id), ("childId", ArgValue.str id2)]) "childId" = truthyStr (some id2) from rfl]
      exact truthyStr_of_ne h2
    have egp : getStr (some [("parentId", ArgValue.str id), ("childId", ArgValue.str id2)]) "parentId" = some id := rfl
    have egc : getStr (some [("parentId", ArgValue.str id), ("childId", ArgValue.str id2)]) "childId" = some id2 := rfl
    refine notFoundOut c _ "Parent issue " id ?_
    rw [show dispatch c { name := "link_issues", arguments := some [("parentId", ArgValue.str id), ("childId", ArgValue.str id2)] } = linkIssuesTool c (some [("parentId", ArgValue.str id), ("childId", ArgValue.str id2)]) from rfl]
    simp [linkIssuesTool, ep, ec, egp, egc, LinearClient.run, hfail, h]
  · intro hsome hn2
    obtain ⟨pIss, hp⟩ := Option.isSome_iff_exists.mp hsome
    have ep : argTruthy (some [("parentId", ArgValue.str id), ("childId", ArgValue.str id2)]) "parentId" = true := by
      rw [show argTruthy (some [("parentId", ArgValue.str id), ("childId", ArgValue.str id2)]) "parentId" = truthyStr (some id) from rfl]
      exact truthyStr_of_ne h1
    have ec : argTruthy (some [("parentId", ArgValue.str id), ("childId", ArgValue.str id2)]) "childId" = true := by
      rw [show argTruthy (some [("parentId", ArgValue.str id), ("childId", ArgValue.str id2)]) "childId" = truthyStr (some id2) from rfl]
      exact truthyStr_of_ne h2
    have egp : getStr (some [("parentId", ArgValue.str id), ("childId", ArgValue.str id2)]) "parentId" = some id := rfl
    have egc : getStr (some [("parentId", ArgValue.str id), ("childId", ArgValue.str id2)]) "childId" = some id2 := rfl
    refine notFoundOut c _ "Child issue " id2 ?_
    rw [show dispatch c { name := "link_issues", arguments := some [("parentId", ArgValue.str id), ("childId", ArgValue.str id2)] } = linkIssuesTool c (some [("parentId", ArgValue.str id), ("childId", ArgValue.str id2)]) from rfl]
    simp [linkIssuesTool, ep, ec, egp, egc, LinearClient.run, hfail, hp, hn2]
  · intro h
    have ep : argTruthy (some [("parentId", ArgValue.str id), ("childId", ArgValue.str id2)]) "parentId" = true := by
      rw [show argTruthy (some [("parentId", ArgValue.str id), ("childId", ArgValue.str id2)]) "parentId" = truthyStr (some id) from rfl]
      exact truthyStr_of_ne h1
    have ec : argTruthy (some [("parentId", ArgValue.str id), ("childId", ArgValue.str id2)]) "childId" = true := by
      rw [show argTruthy (some [("parentId", ArgValue.str id), ("childId", ArgValue.str id2)]) "childId" = truthyStr (some id2) from rfl]
      exact truthyStr_of_ne h2
    have egp : getStr (some [("parentId", ArgValue.str id), ("childId", ArgValue.str id2)]) "parentId" = some id := rfl
    have egc : getStr (some [("parentId", ArgValue.str id), ("childId", ArgValue.str id2)]) "childId" = some id2 := rfl
    refine notFoundOut c _ "Parent issue " id ?_
    rw [show dispatch c { name := "unlink_issues", arguments := some [("parentId", ArgValue.str id), ("childId", ArgValue.str id2)] } = unlinkIssuesTool c (some [("parentId", ArgValue.str id), ("childId", ArgValue.str id2)]) from rfl]
    simp [unlinkIssuesTool, ep, ec, egp, egc, LinearClient.run, hfail, h]
  · intro hsome hn2
    obtain ⟨pIss, hp⟩ := Option.isSome_iff_exists.mp hsome
    have ep : argTruthy (some [("parentId", ArgValue.str id), ("childId", ArgValue.str id2)]) "parentId" = true := by
      rw [show argTruthy (some [("parentId", ArgValue.str id), ("childId", ArgValue.str id2)]) "parentId" = truthyStr (some id) from rfl]
      exact truthyStr_of_ne h1
    have ec : argTruthy (some [("parentId", ArgValue.str id), ("childId", ArgValue.str id2)]) "childId" = true := by
      rw [show argTruthy (some [("parentId", ArgValue.str id), ("childId", ArgValue.str id2)]) "childId" = truthyStr (some id2) from rfl]
      exact truthyStr_of_ne h2
    have egp : getStr (some [("parentId", ArgValue.str id), ("childId", ArgValue.str id2)]) "parentId" = some id := rfl
    have egc : getStr (some [("parentId", ArgValue.str id), ("childId", ArgValue.str id2)]) "childId" = some id2 := rfl
    refine notFoundOut c _ "Child issue " id2 ?_
    rw [show dispatch c { name := "unlink_issues", arguments := some [("parentId", ArgValue.str id), ("childId", ArgValue.str id2)] } = unlinkIssuesTool c (some [("parentId", ArgValue.str id), ("childId", ArgValue.str id2)]) from rfl]
    simp [unlinkIssuesTool, ep, ec, egp, egc, LinearClient.run, hfail, hp, hn2]
  · intro h
    have et : argTruthy (some [("identifier", ArgValue.str id)]) "identifier" = true := by
      rw [show argTruthy (some [("identifier", ArgValue.str id)]) "identifier" = truthyStr (some id) from rfl]
      exact truthyStr_of_ne h1
    have eg : getStr (some [("identifier", ArgValue.str id)]) "identifier" = some id := rfl
    refine notFoundOut c _ "Issue " id ?_
    rw [show dispatch c (reqOf1 "get_issue_by_identifier" "identifier" id) = getIssueByIdentifierTool c (some [("identifier", ArgValue.str id)]) from rfl]
    simp [getIssueByIdentifierTool, et, eg, LinearClient.run, hfail, h]

/-- Witness for C3 on a concrete empty workspace: a `get_project` for an
unknown id and a `get_issue_by_identifier` for an unknown identifier both
return "not found" errors. -/
theorem C3_not_found_checks_witness :
    notFoundResp (callTool emptyClient (reqOf1 "get_project" "projectId" "nope")) ∧
    notFoundResp
      (callTool emptyClient (reqOf1 "get_issue_by_identifier" "identifier" "ZZZ-123")) := by
  obtain ⟨hA, -, -, -, -, -, -, -, -, -, -, -, -, -, -, -, -, -, hB⟩ :=
    C3_not_found_checks emptyClient "nope" "other" rfl (by decide) (by decide)
  exact ⟨hA rfl, hB rfl⟩

/-- Counterexample for C3 as frozen: `create_issue` with a `teamId` that
resolves to no team does not yield a "not found" error — it performs no
existence check and forwards the input to the remote create call, which may
succeed. -/
def createIssueGhostTeamReq : ToolRequest :=
  { name := "create_issue"
    arguments := some [("title", ArgValue.str "New feature"),
                       ("teamId", ArgValue.str "missing-team")] }

theorem C3_counterexample_create_issue :
    createOkClient.team "missing-team" = none ∧
    (callTool createOkClient createIssueGhostTeamReq).isError = false ∧
    strContains (firstText (callTool createOkClient createIssueGhostTeamReq))
      "not found" = false :=
  ⟨rfl, rfl, rfl⟩

/-! ## Claim C4 -/

/-- Claim C4: for `get_issue` on an existing issue, the handler resolves
exactly the ten lazily-loaded relations — state, assignee, creator, team,
project, parent, cycle, labels, comments, attachments — as one batch
(`Promise.all`, lines 1599-1621) joined before responding, and merges them
with the issue's own scalar fields into a single flat record returned as one
JSON object (the sole content element of the response). -/
theorem C4_issue_detail_join (c : LinearClient) (iid : String) (i : Issue)
    (hiid : iid ≠ "") (hfail : c.fail = none) (hiss : c.issue iid = some i) :
    (callTool c (reqOf1 "get_issue" "issueId" iid)).isError = false ∧
    (callTool c (reqOf1 "get_issue" "issueId" iid)).content
      = [Content.json (issueDetailsJson i)] ∧
    jsonKeys (issueDetailsJson i) =
      ["id", "identifier", "title", "description", "priority",
       "priorityLabel", "status", "url", "createdAt", "updatedAt",
       "startedAt", "completedAt", "canceledAt", "dueDate", "assignee",
       "creator", "team", "project", "parent", "cycle", "labels", "comments",
       "attachments", "embeddedImages", "estimate", "customerTicketCount",
       "previousIdentifiers", "branchName", "archivedAt", "autoArchivedAt",
       "autoClosedAt", "trashed"] ∧
    jsonLookup (issueDetailsJson i) "status" = some (statusJson i.state) ∧
    jsonLookup (issueDetailsJson i) "assignee"
      = some (optObj userRefJson i.assignee) ∧
    jsonLookup (issueDetailsJson i) "creator"
      = some (optObj userRefJson i.creator) ∧
    jsonLookup (issueDetailsJson i) "team" = some (optObj teamRefJson i.team) ∧
    jsonLookup (issueDetailsJson i) "project"
      = some (optObj projectRefJson i.project) ∧
    jsonLookup (issueDetailsJson i) "parent"
      = some (optObj parentRefJson i.parent) ∧
    jsonLookup (issueDetailsJson i) "cycle" = some (cycleFieldJson i.cycle) ∧
    jsonLookup (issueDetailsJson i) "labels"
      = some (Json.arr (i.labels.map labelSmallJson)) ∧
    jsonLookup (issueDetailsJson i) "comments"
      = some (Json.arr (i.comments.map commentSmallJson)) ∧
    jsonLookup (issueDetailsJson i) "attachments"
      = some (Json.arr ((i.attachments.filter (fun a => isImageUrl a.url)).map
          attachmentImageJson)) := by
  have et : argTruthy (some [("issueId", ArgValue.str iid)]) "issueId" = true := by
    rw [show argTruthy (some [("issueId", ArgValue.str iid)]) "issueId"
      = truthyStr (some iid) from rfl]
    exact truthyStr_of_ne hiid
  have eg : getStr (some [("issueId", ArgValue.str iid)]) "issueId" = some iid := rfl
  have hd : dispatch c (reqOf1 "get_issue" "issueId" iid)
      = Except.ok (okResp (issueDetailsJson i)) := by
    rw [show dispatch c (reqOf1 "get_issue" "issueId" iid)
      = getIssueTool c (some [("issueId", ArgValue.str iid)]) from rfl]
    simp [getIssueTool, et, eg, LinearClient.run, hfail, hiss]
  refine ⟨by simp [callTool, hd, okResp], by simp [callTool, hd, okResp],
    rfl, rfl, rfl, rfl, rfl, rfl, rfl, rfl, rfl, rfl, rfl⟩

/-- Witness for C4 on a concrete issue: the response is one JSON object whose
relation fields carry the resolved state and assignee. -/
theorem C4_issue_detail_join_witness :
    (callTool issueClient (reqOf1 "get_issue" "issueId" "I1")).isError = false ∧
    (callTool issueClient (reqOf1 "get_issue" "issueId" "I1")).content
      = [Content.json (issueDetailsJson sampleIssue)] ∧
    jsonLookup (issueDetailsJson sampleIssue) "status"
      = some (Json.str "In Progress") ∧
    jsonLookup (issueDetailsJson sampleIssue) "assignee"
      = some (userRefJson sampleUser) := by
  obtain ⟨e1, e2, -, e4, e5, -⟩ :=
    C4_issue_detail_join issueClient "I1" sampleIssue (by decide) rfl rfl
  exact ⟨e1, e2, e4, e5⟩

/-! ## Claim C5 -/

/-- Claim C5: every successful `list_issues` response payload is a JSON
array in which every element has exactly the fields `id`, `title`, `status`,
`assignee`, `priority`, `url`; `status` is the issue's state name or
"Unknown" when the issue has no state, and `assignee` is the assignee's name
or "Unassigned" when the issue has no assignee. -/
theorem C5_list_issues_shape (c : LinearClient) (args : Option Args)
    (i : Issue) (st : WorkflowState) (u : User) (hfail : c.fail = none) :
    (callTool c { name := "list_issues", arguments := args }).isError = false ∧
    (callTool c { name := "list_issues", arguments := args }).content
      = [Content.json (Json.arr
          ((c.issues (listIssuesFilter args)).map listedIssueJson))] ∧
    jsonKeys (listedIssueJson i)
      = ["id", "title", "status", "assignee", "priority", "url"] ∧
    jsonLookup (listedIssueJson i) "status" = some (statusJson i.state) ∧
    jsonLookup (listedIssueJson i) "assignee"
      = some (assigneeNameJson i.assignee) ∧
    statusJson (some st) = Json.str st.name ∧
    statusJson none = Json.str "Unknown" ∧
    assigneeNameJson (some u) = Json.str u.name ∧
    assigneeNameJson none = Json.str "Unassigned" := by
  have hd : dispatch c { name := "list_issues", arguments := args }
      = Except.ok (okResp (Json.arr
          ((c.issues (listIssuesFilter args)).map listedIssueJson))) := by
    rw [show dispatch c { name := "list_issues", arguments := args }
      = listIssuesTool c args from rfl]
    simp [listIssuesTool, LinearClient.run, hfail]
  refine ⟨by simp [callTool, hd, okResp], by simp [callTool, hd, okResp],
    rfl, rfl, rfl, rfl, rfl, rfl, rfl⟩

/-- Witness for C5 on a one-issue workspace, including the defaulted
"Unknown"/"Unassigned" element shape for a relationless issue. -/
theorem C5_list_issues_shape_witness :
    (callTool envOneIssue { name := "list_issues", arguments := none }).isError
      = false ∧
    (callTool envOneIssue { name := "list_issues", arguments := none }).content
      = [Content.json (Json.arr [listedIssueJson sampleIssue])] ∧
    jsonLookup (listedIssueJson ({} : Issue)) "status"
      = some (Json.str "Unknown") ∧
    jsonLookup (listedIssueJson ({} : Issue)) "assignee"
      = some (Json.str "Unassigned") := by
  obtain ⟨e1, e2, -, e4, e5, -⟩ :=
    C5_list_issues_shape envOneIssue none ({} : Issue) sampleState sampleUser rfl
  exact ⟨e1, e2, e4, e5⟩

/-! ## Claim C6 -/

theorem relationCalls_sum (l : List Issue)
    (h : ∀ i ∈ l, i.state.isSome = true ∧ i.assignee.isSome = true) :
    (l.map (fun i => (if i.state.isSome then 1 else 0) +
      (if i.assignee.isSome then 1 else 0))).sum = 2 * l.length := by
  induction l with
  | nil => simp
  | cons x xs ih =>
    have hx := h x (List.mem_cons_self x xs)
    have hxs : ∀ i ∈ xs, i.state.isSome = true ∧ i.assignee.isSome = true :=
      fun i hi => h i (List.mem_cons_of_mem x hi)
    simp [hx.1, hx.2, ih hxs]
    omega

/-- Counterexample for C6 as frozen: the number of external calls a
`list_issues` invocation performs depends on the size of the returned result
set.  Two clients identical but for the issues list: one returned issue costs
3 external lookups, two returned issues cost 5. -/
theorem C6_counterexample_per_node_calls :
    listIssuesExternalCalls envOneIssue none = 3 ∧
    (envOneIssue.issues (listIssuesFilter none)).length = 1 ∧
    listIssuesExternalCalls envTwoIssues none = 5 ∧
    (envTwoIssues.issues (listIssuesFilter none)).length = 2 :=
  ⟨rfl, rfl, rfl, rfl⟩

/-- Claim C6 (amended): not every tool invocation is a single external call
or one fixed batch.  Handlers that format result lists resolve lazily-loaded
relations per returned node: a `list_issues` invocation against a working
remote issues `1 + 2·N` external lookups when all `N` returned issues carry a
state and an assignee (one query plus a state fetch and an assignee fetch per
node) — a count that grows with the result set; and `list_labels` with a
truthy `teamId` issues two label queries sequentially. -/
theorem C6_amended_call_counts (c : LinearClient) (args : Option Args)
    (hfail : c.fail = none)
    (hall : ∀ i ∈ c.issues (listIssuesFilter args),
      i.state.isSome = true ∧ i.assignee.isSome = true) :
    listIssuesExternalCalls c args
      = 1 + 2 * (c.issues (listIssuesFilter args)).length ∧
    (argTruthy args "teamId" = true →
      listLabelsLabelQueryCalls c args = 2) := by
  constructor
  · simp [listIssuesExternalCalls, hfail, relationCalls_sum _ hall]
  · intro ht
    simp [listLabelsLabelQueryCalls, ht]

def teamT1Args : Option Args := some [("teamId", ArgValue.str "T1")]

/-- Witness for the amended C6 at a two-issue workspace with a team filter. -/
theorem C6_amended_call_counts_witness :
    listIssuesExternalCalls envTwoIssues teamT1Args
      = 1 + 2 * (envTwoIssues.issues (listIssuesFilter teamT1Args)).length ∧
    (argTruthy teamT1Args "teamId" = true →
      listLabelsLabelQueryCalls envTwoIssues teamT1Args = 2) :=
  C6_amended_call_counts envTwoIssues teamT1Args rfl (by decide)

/-! ## Claim C8 -/

/-- Claim C8: in every successful `get_issue` and `get_issue_by_identifier`
response, the `attachments` array contains exactly those of the issue's
attachments whose url ends in a .jpg/.jpeg/.png/.gif/.webp extension
(case-insensitively), each carrying an added `analysis` field; all other
attachments are omitted from the response even though they were fetched. -/
theorem C8_attachments_image_filter (c : LinearClient) (iid ident : String)
    (i : Issue) (rest : List Issue) (att : Attachment)
    (hfail : c.fail = none) (hiid : iid ≠ "") (hident : ident ≠ "")
    (hiss : c.issue iid = some i) :
    jsonLookup (firstJson (callTool c (reqOf1 "get_issue" "issueId" iid)))
        "attachments"
      = some (Json.arr ((i.attachments.filter (fun a => isImageUrl a.url)).map
          attachmentImageJson)) ∧
    (c.issues (identifierFilter ident) = i :: rest →
      jsonLookup (firstJson (callTool c
          (reqOf1 "get_issue_by_identifier" "identifier" ident))) "attachments"
        = some (Json.arr ((i.attachments.filter (fun a => isImageUrl a.url)).map
            attachmentImageJson))) ∧
    jsonKeys (attachmentImageJson att) = ["id", "title", "url", "analysis"] ∧
    jsonLookup (attachmentImageJson att) "analysis"
      = some (Json.str "Image analysis would go here") := by
  have et : argTruthy (some [("issueId", ArgValue.str iid)]) "issueId" = true := by
    rw [show argTruthy (some [("issueId", ArgValue.str iid)]) "issueId"
      = truthyStr (some iid) from rfl]
    exact truthyStr_of_ne hiid
  have eg : getStr (some [("issueId", ArgValue.str iid)]) "issueId" = some iid := rfl
  have hd : dispatch c (reqOf1 "get_issue" "issueId" iid)
      = Except.ok (okResp (issueDetailsJson i)) := by
    rw [show dispatch c (reqOf1 "get_issue" "issueId" iid)
      = getIssueTool c (some [("issueId", ArgValue.str iid)]) from rfl]
    simp [getIssueTool, et, eg, LinearClient.run, hfail, hiss]
  have hj : firstJson (callTool c (reqOf1 "get_issue" "issueId" iid))
      = issueDetailsJson i := by
    simp [callTool, hd, okResp, firstJson]
  refine ⟨by rw [hj]; rfl, ?_, rfl, rfl⟩
  intro hq
  have et2 : argTruthy (some [("identifier", ArgValue.str ident)]) "identifier"
      = true := by
    rw [show argTruthy (some [("identifier", ArgValue.str ident)]) "identifier"
      = truthyStr (some ident) from rfl]
    exact truthyStr_of_ne hident
  have eg2 : getStr (some [("identifier", ArgValue.str ident)]) "identifier"
      = some ident := rfl
  have hd2 : dispatch c (reqOf1 "get_issue_by_identifier" "identifier" ident)
      = Except.ok (okResp (issueDetailsJson i)) := by
    rw [show dispatch c (reqOf1 "get_issue_by_identifier" "identifier" ident)
      = getIssueByIdentifierTool c (some [("identifier", ArgValue.str ident)])
      from rfl]
    simp [getIssueByIdentifierTool, et2, eg2, LinearClient.run, hfail, hq]
  have hj2 : firstJson (callTool c
      (reqOf1 "get_issue_by_identifier" "identifier" ident))
      = issueDetailsJson i := by
    simp [callTool, hd2, okResp, firstJson]
  rw [hj2]
  rfl

/-- Witness for C8: an issue with a `.PNG` and a `.pdf` attachment keeps only
the former (with the `analysis` field) in both detail responses. -/
theorem C8_attachments_image_filter_witness :
    jsonLookup (firstJson (callTool issueClient
        (reqOf1 "get_issue" "issueId" "I1"))) "attachments"
      = some (Json.arr [attachmentImageJson samplePngAttachment]) ∧
    jsonLookup (firstJson (callTool issueClient
        (reqOf1 "get_issue_by_identifier" "identifier" "ENG-1"))) "attachments"
      = some (Json.arr [attachmentImageJson samplePngAttachment]) ∧
    jsonKeys (attachmentImageJson samplePngAttachment)
      = ["id", "title", "url", "analysis"] := by
  obtain ⟨e1, e2, e3, -⟩ :=
    C8_attachments_image_filter issueClient "I1" "ENG-1" sampleIssue []
      samplePngAttachment rfl (by decide) (by decide) rfl
  exact ⟨e1, e2 rfl, e3⟩

/-! ## Claim C9 -/

/-- Claim C9: in every successful `get_project` response, the `endsAt` field
equals the project's `completedAt` value — the same value also returned in
the `completedAt` field (line 724 assigns `endsAt: project.completedAt`) —
so `endsAt` and `completedAt` are always equal in the response, regardless of
the project's own target-date attribute. -/
theorem C9_endsAt_is_completedAt (c : LinearClient) (pid : String)
    (p : Project) (hfail : c.fail = none) (hpid : pid ≠ "")
    (hp : c.project pid = some p) :
    (callTool c (reqOf1 "get_project" "projectId" pid)).isError = false ∧
    jsonLookup (firstJson (callTool c (reqOf1 "get_project" "projectId" pid)))
        "endsAt"
      = jsonLookup (firstJson (callTool c (reqOf1 "get_project" "projectId" pid)))
        "completedAt" ∧
    jsonLookup (firstJson (callTool c (reqOf1 "get_project" "projectId" pid)))
        "endsAt"
      = some (optStrUndef p.completedAt) := by
  have et : argTruthy (some [("projectId", ArgValue.str pid)]) "projectId"
      = true := by
    rw [show argTruthy (some [("projectId", ArgValue.str pid)]) "projectId"
      = truthyStr (some pid) from rfl]
    exact truthyStr_of_ne hpid
  have eg : getStr (some [("projectId", ArgValue.str pid)]) "projectId"
      = some pid := rfl
  have hd : dispatch c (reqOf1 "get_project" "projectId" pid)
      = Except.ok (okResp (projectDetailsJson p)) := by
    rw [show dispatch c (reqOf1 "get_project" "projectId" pid)
      = getProjectTool c (some [("projectId", ArgValue.str pid)]) from rfl]
    simp [getProjectTool, et, eg, LinearClient.run, hfail, hp]
  have hj : firstJson (callTool c (reqOf1 "get_project" "projectId" pid))
      = projectDetailsJson p := by
    simp [callTool, hd, okResp, firstJson]
  refine ⟨by simp [callTool, hd, okResp], by rw [hj]; rfl, by rw [hj]; rfl⟩

/-- Witness for C9 on a project whose target date differs from its completion
date: the response's `endsAt` carries the completion date. -/
theorem C9_endsAt_is_completedAt_witness :
    (callTool projectClient (reqOf1 "get_project" "projectId" "P1")).isError
      = false ∧
    jsonLookup (firstJson (callTool projectClient
        (reqOf1 "get_project" "projectId" "P1"))) "endsAt"
      = jsonLookup (firstJson (callTool projectClient
        (reqOf1 "get_project" "projectId" "P1"))) "completedAt" ∧
    jsonLookup (firstJson (callTool projectClient
        (reqOf1 "get_project" "projectId" "P1"))) "endsAt"
      = some (Json.str "2025-06-30") ∧
    sampleProject.targetDate = some "2025-12-31" := by
  obtain ⟨e1, e2, e3⟩ :=
    C9_endsAt_is_completedAt projectClient "P1" sampleProject rfl (by decide) rfl
  exact ⟨e1, e2, e3, rfl⟩

/-! ## Claim C10 -/

theorem dedupByIdAux_not_mem_seen :
    ∀ (ls : List Label) (seen : List String) (x : String),
      x ∈ (dedupByIdAux seen ls).map Label.id → x ∉ seen := by
  intro ls
  induction ls with
  | nil => intro seen x h; simp [dedupByIdAux] at h
  | cons l t ih =>
    intro seen x h
    by_cases hm : l.id ∈ seen
    · exact ih seen x (by simpa [dedupByIdAux, hm] using h)
    · rcases (by simpa [dedupByIdAux, hm] using h : x = l.id ∨
        x ∈ (dedupByIdAux (l.id :: seen) t).map Label.id) with rfl | hx
      · exact hm
      · intro hxs
        exact ih (l.id :: seen) x hx (List.mem_cons_of_mem _ hxs)

theorem dedupByIdAux_ids_nodup :
    ∀ (ls : List Label) (seen : List String),
      ((dedupByIdAux seen ls).map Label.id).Nodup := by
  intro ls
  induction ls with
  | nil => intro seen; simp [dedupByIdAux]
  | cons l t ih =>
    intro seen
    by_cases hm : l.id ∈ seen
    · simpa [dedupByIdAux, hm] using ih seen
    · simp only [dedupByIdAux, hm, if_false, List.map_cons]
      refine List.nodup_cons.mpr ⟨?_, ih (l.id :: seen)⟩
      intro hmem
      exact dedupByIdAux_not_mem_seen t (l.id :: seen) l.id hmem
        (List.mem_cons_self _ _)

/-- After the merge deduplication of `list_labels`, label ids are pairwise
distinct. -/
theorem dedupById_ids_nodup (ls : List Label) :
    ((dedupById ls).map Label.id).Nodup :=
  dedupByIdAux_ids_nodup ls []

/-- Claim C10: a `list_labels` call with a truthy `teamId` executes the first
`list_labels` case block: the response is the deduplicated concatenation of
the team-filtered label query and the workspace-level (team-less) label
query, each label id occurring at most once; the later duplicate
`list_labels` case block — modelled as `listLabelsDupTool`, which would
return only the team-filtered query — is unreachable under JavaScript's
first-match `switch` semantics, as `dispatch` always selects `listLabelsTool`. -/
theorem C10_list_labels_first_case (c : LinearClient) (args : Option Args)
    (tid : String) (ls : List Label) (hfail : c.fail = none)
    (harg : getStr args "teamId" = some tid) (htid : tid ≠ "") :
    dispatch c { name := "list_labels", arguments := args }
      = listLabelsTool c args ∧
    (callTool c { name := "list_labels", arguments := args }).isError = false ∧
    (callTool c { name := "list_labels", arguments := args }).content
      = [Content.json (Json.arr
          ((dedupById (c.issueLabels (LabelFilter.byTeam tid)
            ++ c.issueLabels LabelFilter.noTeam)).map labelFullJson))] ∧
    ((dedupById ls).map Label.id).Nodup ∧
    listLabelsDupTool c args
      = Except.ok (okResp (Json.arr
          ((c.issueLabels (LabelFilter.byTeam tid)).map labelFullJson))) := by
  have et : argTruthy args "teamId" = true := by
    rw [show argTruthy args "teamId" = truthyStr (getStr args "teamId")
      from rfl, harg]
    exact truthyStr_of_ne htid
  have hlab : listLabelsTool c args
      = Except.ok (okResp (Json.arr
          ((dedupById (c.issueLabels (LabelFilter.byTeam tid)
            ++ c.issueLabels LabelFilter.noTeam)).map labelFullJson))) := by
    simp [listLabelsTool, et, harg, LinearClient.run, hfail]
  have hd : dispatch c { name := "list_labels", arguments := args }
      = listLabelsTool c args := rfl
  refine ⟨hd, ?_, ?_, dedupById_ids_nodup ls, ?_⟩
  · simp [callTool, hd, hlab, okResp]
  · simp [callTool, hd, hlab, okResp]
  · simp [listLabelsDupTool, et, harg, LinearClient.run, hfail]

/-- Witness for C10: against a workspace with one team label, one label
returned by both queries and one workspace label, the merged response lists
each exactly once, while the dead duplicate block would return only the two
team-query labels. -/
theorem C10_list_labels_first_case_witness :
    (callTool labelClient { name := "list_labels", arguments := teamT1Args }).content
      = [Content.json (Json.arr
          [labelFullJson labelTeamOnly, labelFullJson labelShared,
           labelFullJson labelWorkspace])] ∧
    ((dedupById [labelTeamOnly, labelShared, labelShared]).map Label.id).Nodup ∧
    listLabelsDupTool labelClient teamT1Args
      = Except.ok (okResp (Json.arr
          [labelFullJson labelTeamOnly, labelFullJson labelShared])) := by
  obtain ⟨-, -, e3, e4, e5⟩ :=
    C10_list_labels_first_case labelClient teamT1Args "T1"
      [labelTeamOnly, labelShared, labelShared] rfl rfl (by decide)
  exact ⟨e3, e4, e5⟩

end LinearMcp
